import Mathlib

/-!
Shallow embedding of the financial calculation engine found in
`src/lib/calculations.ts` of the finesse repository.

JavaScript numbers are modelled as exact rationals (`ℚ`); month / year
counts are natural numbers, so `Math.pow(1 + r, n)` becomes the exact
power `(1 + r) ^ n`.  The `while` loops of the extra-payment simulator
and the schedule generators become structural recursions whose fuel is
exactly the loop bound of the source (`months < maxMonths`,
`month < standardNumPayments * 2`, fixed `for` counts).  Division by
zero in `ℚ` yields `0`, which is only ever relied upon outside the
guarded domains of the claims.
-/

/-- Mirrors the TS union type `GracePeriodType`. -/
inductive GracePeriodType
  | none
  | no_payment
  | interest_only
  deriving DecidableEq, Repr

/-- Mirrors the TS union type `ExtraPaymentType`. -/
inductive ExtraPaymentType
  | none
  | extra_monthly
  | extra_yearly
  | biweekly
  deriving DecidableEq, Repr

/-- Mirrors the TS union type `"monthly" | "yearly"` used for schedule granularity. -/
inductive PeriodType
  | monthly
  | yearly
  deriving DecidableEq, Repr

/-- Mirrors the TS interface `AmortizationRow`. -/
structure AmortizationRow where
  period : ℕ
  payment : ℚ
  principal : ℚ
  interest : ℚ
  balance : ℚ
  totalPrincipal : ℚ
  totalInterest : ℚ
  deriving DecidableEq, Repr

/-- Mirrors the TS interface `InvestmentGrowthRow`. -/
structure InvestmentGrowthRow where
  year : ℕ
  contributions : ℚ
  interest : ℚ
  balance : ℚ
  deriving DecidableEq, Repr

/-- Mirrors the TS interface `LoanResult`. -/
structure LoanResult where
  monthlyPayment : ℚ
  totalPayment : ℚ
  totalInterest : ℚ
  deriving DecidableEq, Repr

/-- Mirrors the TS interface `LoanWithGraceResult`. -/
structure LoanWithGraceResult where
  monthlyPayment : ℚ
  totalPayment : ℚ
  totalInterest : ℚ
  gracePayment : ℚ
  principalAfterGrace : ℚ
  graceInterest : ℚ
  deriving DecidableEq, Repr

/-- Mirrors the TS interface `BalloonLoanResult`. -/
structure BalloonLoanResult where
  monthlyPayment : ℚ
  balloonPayment : ℚ
  totalPayment : ℚ
  totalInterest : ℚ
  deriving DecidableEq, Repr

/-- Mirrors the TS interface `BulletLoanResult`. -/
structure BulletLoanResult where
  monthlyPayment : ℚ
  finalPayment : ℚ
  totalPayment : ℚ
  totalInterest : ℚ
  deriving DecidableEq, Repr

/-- Mirrors the TS interface `MortgageResult`. -/
structure MortgageResult where
  monthlyPrincipalInterest : ℚ
  monthlyPropertyTax : ℚ
  monthlyInsurance : ℚ
  monthlyHoa : ℚ
  totalMonthly : ℚ
  loanAmount : ℚ
  totalCost : ℚ
  deriving DecidableEq, Repr

/-- Mirrors the TS interface `InvestmentResult`. -/
structure InvestmentResult where
  futureValue : ℚ
  totalContributions : ℚ
  totalInterest : ℚ
  deriving DecidableEq, Repr

/-- Mirrors the TS interface `ExtraPaymentConfig`. -/
structure ExtraPaymentConfig where
  type : ExtraPaymentType
  extraMonthly : ℚ
  extraYearlyAmount : ℚ
  extraYearlyMonth : ℕ
  deriving DecidableEq, Repr

/-- Mirrors the TS interface `ExtraPaymentResult`.  `monthsSaved` is the
JS value `Math.max(0, standardNumPayments - months)`, an integer that the
source computes in plain number arithmetic, so it is modelled as `ℤ`. -/
structure ExtraPaymentResult where
  standardMonthlyPayment : ℚ
  standardTotalPayment : ℚ
  standardTotalInterest : ℚ
  standardMonths : ℕ
  actualMonths : ℕ
  actualTotalPayment : ℚ
  actualTotalInterest : ℚ
  monthsSaved : ℤ
  interestSaved : ℚ
  effectiveMonthlyPayment : ℚ
  deriving DecidableEq, Repr

/-- Embedding of `calculateLoanPayment` (calculations.ts, lines 180-209). -/
def calculateLoanPayment (principal annualRate : ℚ) (years : ℕ) : LoanResult :=
  if principal ≤ 0 ∨ years = 0 then
    { monthlyPayment := 0, totalPayment := 0, totalInterest := 0 }
  else
    let monthlyRate := annualRate / 100 / 12
    let numPayments : ℕ := years * 12
    if monthlyRate = 0 then
      { monthlyPayment := principal / numPayments
        totalPayment := principal
        totalInterest := 0 }
    else
      let monthlyPayment :=
        (principal * (monthlyRate * (1 + monthlyRate) ^ numPayments)) /
          ((1 + monthlyRate) ^ numPayments - 1)
      let totalPayment := monthlyPayment * numPayments
      { monthlyPayment := monthlyPayment
        totalPayment := totalPayment
        totalInterest := totalPayment - principal }

/-- Embedding of `calculateLoanWithGracePeriod` (calculations.ts, lines 211-284). -/
def calculateLoanWithGracePeriod (principal annualRate : ℚ) (years gracePeriodMonths : ℕ)
    (gracePeriodType : GracePeriodType) : LoanWithGraceResult :=
  if principal ≤ 0 ∨ years = 0 then
    { monthlyPayment := 0, gracePayment := 0, totalPayment := 0, totalInterest := 0
      principalAfterGrace := 0, graceInterest := 0 }
  else
    let monthlyRate := annualRate / 100 / 12
    let monthlyInterest := principal * monthlyRate
    if gracePeriodType = GracePeriodType.none ∨ gracePeriodMonths = 0 then
      let result := calculateLoanPayment principal annualRate years
      { monthlyPayment := result.monthlyPayment
        totalPayment := result.totalPayment
        totalInterest := result.totalInterest
        gracePayment := 0
        principalAfterGrace := principal
        graceInterest := 0 }
    else
      let pg :=
        if gracePeriodType = GracePeriodType.no_payment then
          (principal * (1 + monthlyRate) ^ gracePeriodMonths,
            principal * (1 + monthlyRate) ^ gracePeriodMonths - principal,
            (0 : ℚ), (0 : ℚ))
        else if gracePeriodType = GracePeriodType.interest_only then
          (principal, monthlyInterest * gracePeriodMonths, monthlyInterest,
            monthlyInterest * gracePeriodMonths)
        else (principal, 0, 0, 0)
      let principalAfterGrace := pg.1
      let graceInterest := pg.2.1
      let gracePayment := pg.2.2.1
      let totalGracePayments := pg.2.2.2
      let numPayments : ℕ := years * 12
      let mt :=
        if monthlyRate = 0 then
          (principalAfterGrace / numPayments, principalAfterGrace)
        else
          let mp :=
            (principalAfterGrace * (monthlyRate * (1 + monthlyRate) ^ numPayments)) /
              ((1 + monthlyRate) ^ numPayments - 1)
          (mp, mp * numPayments)
      let monthlyPayment := mt.1
      let totalRegularPayments := mt.2
      let totalPayment := totalGracePayments + totalRegularPayments
      { monthlyPayment := monthlyPayment
        gracePayment := gracePayment
        totalPayment := totalPayment
        totalInterest := totalPayment - principal
        principalAfterGrace := principalAfterGrace
        graceInterest := graceInterest }

/-- Embedding of `calculateBalloonLoan` (calculations.ts, lines 286-319). -/
def calculateBalloonLoan (principal annualRate : ℚ) (years : ℕ) : BalloonLoanResult :=
  if principal ≤ 0 ∨ years = 0 then
    { monthlyPayment := 0, balloonPayment := 0, totalPayment := 0, totalInterest := 0 }
  else
    let monthlyRate := annualRate / 100 / 12
    let numMonths : ℕ := years * 12
    let monthlyPayment := principal * monthlyRate
    let totalInterestPayments := monthlyPayment * numMonths
    let balloonPayment := principal
    { monthlyPayment := monthlyPayment
      balloonPayment := balloonPayment
      totalPayment := totalInterestPayments + balloonPayment
      totalInterest := totalInterestPayments }

/-- Embedding of `calculateBulletLoan` (calculations.ts, lines 321-351). -/
def calculateBulletLoan (principal annualRate : ℚ) (years : ℕ) : BulletLoanResult :=
  if principal ≤ 0 ∨ years = 0 then
    { monthlyPayment := 0, finalPayment := 0, totalPayment := 0, totalInterest := 0 }
  else
    let monthlyRate := annualRate / 100 / 12
    let numMonths : ℕ := years * 12
    let finalPayment := principal * (1 + monthlyRate) ^ numMonths
    { monthlyPayment := 0
      finalPayment := finalPayment
      totalPayment := finalPayment
      totalInterest := finalPayment - principal }

/-- Embedding of `calculateMortgage` (calculations.ts, lines 353-378).
Note: the source applies no non-positive guard of its own; only the
delegated `calculateLoanPayment` call guards the payment. -/
def calculateMortgage (homePrice downPayment annualRate : ℚ) (years : ℕ)
    (annualPropertyTax annualInsurance : ℚ) (monthlyHoa : ℚ := 0) : MortgageResult :=
  let loanAmount := homePrice - downPayment
  let monthlyPayment := (calculateLoanPayment loanAmount annualRate years).monthlyPayment
  let monthlyPropertyTax := annualPropertyTax / 12
  let monthlyInsurance := annualInsurance / 12
  let totalMonthly := monthlyPayment + monthlyPropertyTax + monthlyInsurance + monthlyHoa
  { monthlyPrincipalInterest := monthlyPayment
    monthlyPropertyTax := monthlyPropertyTax
    monthlyInsurance := monthlyInsurance
    monthlyHoa := monthlyHoa
    totalMonthly := totalMonthly
    loanAmount := loanAmount
    totalCost := totalMonthly * years * 12 }

/-- Embedding of `calculateInvestment` (calculations.ts, lines 380-404).
Note: the source applies no input guard at all. -/
def calculateInvestment (initial monthly annualRate : ℚ) (years : ℕ) : InvestmentResult :=
  let monthlyRate := annualRate / 100 / 12
  let numMonths : ℕ := years * 12
  let fvInitial := initial * (1 + monthlyRate) ^ numMonths
  let fvContributions :=
    if monthlyRate > 0 then
      monthly * (((1 + monthlyRate) ^ numMonths - 1) / monthlyRate)
    else
      monthly * numMonths
  let futureValue := fvInitial + fvContributions
  let totalContributions := initial + monthly * numMonths
  { futureValue := futureValue
    totalContributions := totalContributions
    totalInterest := futureValue - totalContributions }

/-- One month of the standard amortization loop body (calculations.ts,
lines 41-43 and 65-67): interest on the running balance, principal
portion of the fixed payment, new balance floored at zero. -/
def amortStepBal (monthlyRate monthlyPayment b : ℚ) : ℚ :=
  max 0 (b - (monthlyPayment - b * monthlyRate))

/-- The running balance of the standard amortization loop after `k` months. -/
def amortBalIter (monthlyRate monthlyPayment b : ℚ) : ℕ → ℚ
  | 0 => b
  | k + 1 => amortStepBal monthlyRate monthlyPayment (amortBalIter monthlyRate monthlyPayment b k)

/-- The monthly branch of `generateAmortizationSchedule` (calculations.ts,
lines 39-56): `fuel` months remain, `month` is the row counter, `b`,
`tP`, `tI` the running balance and cumulative totals. -/
def amortRowsMonthly (monthlyRate monthlyPayment : ℚ) :
    ℕ → ℕ → ℚ → ℚ → ℚ → List AmortizationRow
  | 0, _, _, _, _ => []
  | fuel + 1, month, b, tP, tI =>
    let interest := b * monthlyRate
    let principalPaid := monthlyPayment - interest
    let b' := max 0 (b - principalPaid)
    let tP' := tP + principalPaid
    let tI' := tI + interest
    { period := month + 1, payment := monthlyPayment, principal := principalPaid
      interest := interest, balance := b', totalPrincipal := tP', totalInterest := tI' } ::
      amortRowsMonthly monthlyRate monthlyPayment fuel (month + 1) b' tP' tI'

/-- Accumulator for one year of the yearly branch of
`generateAmortizationSchedule` (calculations.ts, lines 59-84). -/
structure YearAcc where
  balance : ℚ
  yearlyPrincipal : ℚ
  yearlyInterest : ℚ
  yearlyPayment : ℚ
  totalPrincipal : ℚ
  totalInterest : ℚ
  deriving DecidableEq, Repr

/-- The inner 12-month loop of the yearly branch of
`generateAmortizationSchedule` (calculations.ts, lines 64-73). -/
def amortYearMonths (monthlyRate monthlyPayment : ℚ) : ℕ → YearAcc → YearAcc
  | 0, a => a
  | fuel + 1, a =>
    let interest := a.balance * monthlyRate
    let principalPaid := monthlyPayment - interest
    amortYearMonths monthlyRate monthlyPayment fuel
      { balance := max 0 (a.balance - principalPaid)
        yearlyPrincipal := a.yearlyPrincipal + principalPaid
        yearlyInterest := a.yearlyInterest + interest
        yearlyPayment := a.yearlyPayment + monthlyPayment
        totalPrincipal := a.totalPrincipal + principalPaid
        totalInterest := a.totalInterest + interest }

/-- The yearly branch of `generateAmortizationSchedule` (calculations.ts,
lines 57-85). -/
def amortRowsYearly (monthlyRate monthlyPayment : ℚ) :
    ℕ → ℕ → ℚ → ℚ → ℚ → List AmortizationRow
  | 0, _, _, _, _ => []
  | fuel + 1, year, b, tP, tI =>
    let a := amortYearMonths monthlyRate monthlyPayment 12
      { balance := b, yearlyPrincipal := 0, yearlyInterest := 0, yearlyPayment := 0
        totalPrincipal := tP, totalInterest := tI }
    { period := year + 1, payment := a.yearlyPayment, principal := a.yearlyPrincipal
      interest := a.yearlyInterest, balance := a.balance
      totalPrincipal := a.totalPrincipal, totalInterest := a.totalInterest } ::
      amortRowsYearly monthlyRate monthlyPayment fuel (year + 1) a.balance
        a.totalPrincipal a.totalInterest

/-- Embedding of `generateAmortizationSchedule` (calculations.ts, lines 13-88). -/
def generateAmortizationSchedule (principal annualRate : ℚ) (years : ℕ)
    (periodType : PeriodType := PeriodType.yearly) : List AmortizationRow :=
  if principal ≤ 0 ∨ years = 0 then []
  else
    let monthlyRate := annualRate / 100 / 12
    let numPayments : ℕ := years * 12
    let monthlyPayment :=
      if monthlyRate = 0 then principal / numPayments
      else
        (principal * (monthlyRate * (1 + monthlyRate) ^ numPayments)) /
          ((1 + monthlyRate) ^ numPayments - 1)
    match periodType with
    | PeriodType.monthly => amortRowsMonthly monthlyRate monthlyPayment numPayments 0 principal 0 0
    | PeriodType.yearly => amortRowsYearly monthlyRate monthlyPayment years 0 principal 0 0

/-- One month of the investment growth loop body (calculations.ts,
lines 121-122): add interest on the balance, then the contribution. -/
def invStepBal (monthlyRate monthly b : ℚ) : ℚ :=
  b + b * monthlyRate + monthly

/-- The running balance of the investment growth loop after `k` months. -/
def invBalIter (monthlyRate monthly b : ℚ) : ℕ → ℚ
  | 0 => b
  | k + 1 => invStepBal monthlyRate monthly (invBalIter monthlyRate monthly b k)

/-- The inner 12-month loop of `generateInvestmentSchedule`
(calculations.ts, lines 120-125); the triple is
(balance, totalContributions, yearlyInterest). -/
def invYearMonths (monthlyRate monthly : ℚ) : ℕ → ℚ × ℚ × ℚ → ℚ × ℚ × ℚ
  | 0, a => a
  | fuel + 1, a =>
    let interest := a.1 * monthlyRate
    invYearMonths monthlyRate monthly fuel
      (a.1 + interest + monthly, a.2.1 + monthly, a.2.2 + interest)

/-- The per-year loop of `generateInvestmentSchedule` (calculations.ts,
lines 117-133). -/
def invRows (monthlyRate monthly : ℚ) : ℕ → ℕ → ℚ → ℚ → List InvestmentGrowthRow
  | 0, _, _, _ => []
  | fuel + 1, year, b, tc =>
    let a := invYearMonths monthlyRate monthly 12 (b, tc, 0)
    { year := year + 1, contributions := a.2.1, interest := a.1 - a.2.1, balance := a.1 } ::
      invRows monthlyRate monthly fuel (year + 1) a.1 a.2.1

/-- Embedding of `generateInvestmentSchedule` (calculations.ts, lines 97-136). -/
def generateInvestmentSchedule (initial monthly annualRate : ℚ) (years : ℕ) :
    List InvestmentGrowthRow :=
  let monthlyRate := annualRate / 100 / 12
  { year := 0, contributions := initial, interest := 0, balance := initial } ::
    invRows monthlyRate monthly years 0 initial initial

/-- The extra contribution applied in a given (1-based) month, shared by
the simulator (calculations.ts, lines 508-515) and the monthly generator
(lines 580-587); `biweeklyExtra` is the precomputed
`standardMonthlyPayment / 12`. -/
def extraFor (cfg : ExtraPaymentConfig) (biweeklyExtra : ℚ) (month : ℕ) : ℚ :=
  match cfg.type with
  | ExtraPaymentType.none => 0
  | ExtraPaymentType.extra_monthly => cfg.extraMonthly
  | ExtraPaymentType.biweekly => biweeklyExtra
  | ExtraPaymentType.extra_yearly =>
    if month % 12 = cfg.extraYearlyMonth % 12 then cfg.extraYearlyAmount else 0

/-- The mutable state of the extra-payment simulation loop
(calculations.ts, lines 487-490). -/
structure SimState where
  balance : ℚ
  totalPaid : ℚ
  totalInterest : ℚ
  months : ℕ
  deriving DecidableEq, Repr

/-- One iteration of the extra-payment simulation loop body
(calculations.ts, lines 497-521). -/
def simStep (monthlyRate standardMonthlyPayment : ℚ) (cfg : ExtraPaymentConfig)
    (biweeklyExtra : ℚ) (s : SimState) : SimState :=
  let months := s.months + 1
  let interest := s.balance * monthlyRate
  let payment := min standardMonthlyPayment (s.balance + interest)
  let extra := extraFor cfg biweeklyExtra months
  let principalPayment := min (payment - interest + extra) s.balance
  { balance := max 0 (s.balance - principalPayment)
    totalPaid := s.totalPaid + (payment + min extra (principalPayment + interest))
    totalInterest := s.totalInterest + interest
    months := months }

/-- The extra-payment simulation `while` loop (calculations.ts, line 497):
the fuel is the number of months the safety cap still allows, so the
loop guard `months < maxMonths` is `fuel > 0`. -/
def simLoop (monthlyRate standardMonthlyPayment : ℚ) (cfg : ExtraPaymentConfig)
    (biweeklyExtra : ℚ) : ℕ → SimState → SimState
  | 0, s => s
  | fuel + 1, s =>
    if s.balance > 1 / 100 then
      simLoop monthlyRate standardMonthlyPayment cfg biweeklyExtra fuel
        (simStep monthlyRate standardMonthlyPayment cfg biweeklyExtra s)
    else s

/-- Embedding of `calculateLoanWithExtraPayments` (calculations.ts,
lines 433-541). -/
def calculateLoanWithExtraPayments (principal annualRate : ℚ) (years : ℕ)
    (extraPayment : ExtraPaymentConfig) : ExtraPaymentResult :=
  if principal ≤ 0 ∨ years = 0 then
    { standardMonthlyPayment := 0, standardTotalPayment := 0, standardTotalInterest := 0
      standardMonths := 0, actualMonths := 0, actualTotalPayment := 0
      actualTotalInterest := 0, monthsSaved := 0, interestSaved := 0
      effectiveMonthlyPayment := 0 }
  else
    let monthlyRate := annualRate / 100 / 12
    let standardNumPayments : ℕ := years * 12
    let standardMonthlyPayment :=
      if monthlyRate = 0 then principal / standardNumPayments
      else
        (principal * (monthlyRate * (1 + monthlyRate) ^ standardNumPayments)) /
          ((1 + monthlyRate) ^ standardNumPayments - 1)
    let standardTotalPayment := standardMonthlyPayment * standardNumPayments
    let standardTotalInterest := standardTotalPayment - principal
    if extraPayment.type = ExtraPaymentType.none then
      { standardMonthlyPayment := standardMonthlyPayment
        standardTotalPayment := standardTotalPayment
        standardTotalInterest := standardTotalInterest
        standardMonths := standardNumPayments
        actualMonths := standardNumPayments
        actualTotalPayment := standardTotalPayment
        actualTotalInterest := standardTotalInterest
        monthsSaved := 0, interestSaved := 0
        effectiveMonthlyPayment := standardMonthlyPayment }
    else
      let maxMonths := standardNumPayments * 2
      let biweeklyExtra :=
        if extraPayment.type = ExtraPaymentType.biweekly then standardMonthlyPayment / 12
        else 0
      let final := simLoop monthlyRate standardMonthlyPayment extraPayment biweeklyExtra
        maxMonths { balance := principal, totalPaid := 0, totalInterest := 0, months := 0 }
      { standardMonthlyPayment := standardMonthlyPayment
        standardTotalPayment := standardTotalPayment
        standardTotalInterest := standardTotalInterest
        standardMonths := standardNumPayments
        actualMonths := final.months
        actualTotalPayment := final.totalPaid
        actualTotalInterest := final.totalInterest
        monthsSaved := max 0 ((standardNumPayments : ℤ) - final.months)
        interestSaved := max 0 (standardTotalInterest - final.totalInterest)
        effectiveMonthlyPayment := final.totalPaid / final.months }

/-- The monthly branch of `generateAmortizationScheduleWithExtra`
(calculations.ts, lines 574-606); the fuel counts how many months the
cap `month < standardNumPayments * 2` still allows. -/
def genExtraRowsMonthly (monthlyRate standardMonthlyPayment : ℚ) (cfg : ExtraPaymentConfig)
    (biweeklyExtra : ℚ) : ℕ → ℕ → ℚ → ℚ → ℚ → List AmortizationRow
  | 0, _, _, _, _ => []
  | fuel + 1, month, b, tP, tI =>
    if b > 1 / 100 then
      let m := month + 1
      let interest := b * monthlyRate
      let extra := extraFor cfg biweeklyExtra m
      let basePrincipal := standardMonthlyPayment - interest
      let totalPrincipalPayment := min (basePrincipal + extra) b
      let actualPayment := interest + totalPrincipalPayment
      let b' := max 0 (b - totalPrincipalPayment)
      let tP' := tP + totalPrincipalPayment
      let tI' := tI + interest
      { period := m, payment := actualPayment, principal := totalPrincipalPayment
        interest := interest, balance := b', totalPrincipal := tP', totalInterest := tI' } ::
        genExtraRowsMonthly monthlyRate standardMonthlyPayment cfg biweeklyExtra fuel m b' tP' tI'
    else []

/-- Accumulator threaded through the yearly branch of
`generateAmortizationScheduleWithExtra` (calculations.ts, lines 608-653). -/
structure ExtraYearAcc where
  balance : ℚ
  month : ℕ
  yearlyPrincipal : ℚ
  yearlyInterest : ℚ
  yearlyPayment : ℚ
  totalPrincipal : ℚ
  totalInterest : ℚ
  deriving DecidableEq, Repr

/-- The inner month loop (`m` from 1 while `balance > 0.01`) of the yearly
branch of `generateAmortizationScheduleWithExtra` (calculations.ts,
lines 616-640); `m` is the 1-based month within the year. -/
def genExtraYearMonths (monthlyRate standardMonthlyPayment : ℚ) (cfg : ExtraPaymentConfig)
    (biweeklyExtra : ℚ) : ℕ → ℕ → ExtraYearAcc → ExtraYearAcc
  | 0, _, a => a
  | fuel + 1, m, a =>
    if a.balance > 1 / 100 then
      let interest := a.balance * monthlyRate
      let extra :=
        match cfg.type with
        | ExtraPaymentType.none => 0
        | ExtraPaymentType.extra_monthly => cfg.extraMonthly
        | ExtraPaymentType.biweekly => biweeklyExtra
        | ExtraPaymentType.extra_yearly =>
          if m = cfg.extraYearlyMonth then cfg.extraYearlyAmount else 0
      let basePrincipal := standardMonthlyPayment - interest
      let totalPrincipalPayment := min (basePrincipal + extra) a.balance
      let actualPayment := interest + totalPrincipalPayment
      genExtraYearMonths monthlyRate standardMonthlyPayment cfg biweeklyExtra fuel (m + 1)
        { balance := max 0 (a.balance - totalPrincipalPayment)
          month := a.month + 1
          yearlyPrincipal := a.yearlyPrincipal + totalPrincipalPayment
          yearlyInterest := a.yearlyInterest + interest
          yearlyPayment := a.yearlyPayment + actualPayment
          totalPrincipal := a.totalPrincipal + totalPrincipalPayment
          totalInterest := a.totalInterest + interest }
    else a

/-- The yearly branch of `generateAmortizationScheduleWithExtra`
(calculations.ts, lines 608-653). -/
def genExtraRowsYearly (monthlyRate standardMonthlyPayment : ℚ) (cfg : ExtraPaymentConfig)
    (biweeklyExtra : ℚ) : ℕ → ℕ → ℕ → ℚ → ℚ → ℚ → List AmortizationRow
  | 0, _, _, _, _, _ => []
  | fuel + 1, year, month, b, tP, tI =>
    if b > 1 / 100 then
      let a := genExtraYearMonths monthlyRate standardMonthlyPayment cfg biweeklyExtra 12 1
        { balance := b, month := month, yearlyPrincipal := 0, yearlyInterest := 0
          yearlyPayment := 0, totalPrincipal := tP, totalInterest := tI }
      let rest := genExtraRowsYearly monthlyRate standardMonthlyPayment cfg biweeklyExtra fuel
        (year + 1) a.month a.balance a.totalPrincipal a.totalInterest
      if a.yearlyPayment > 0 then
        { period := year + 1, payment := a.yearlyPayment, principal := a.yearlyPrincipal
          interest := a.yearlyInterest, balance := a.balance
          totalPrincipal := a.totalPrincipal, totalInterest := a.totalInterest } :: rest
      else rest
    else []

/-- Embedding of `generateAmortizationScheduleWithExtra`
(calculations.ts, lines 543-657). -/
def generateAmortizationScheduleWithExtra (principal annualRate : ℚ) (years : ℕ)
    (extraPayment : ExtraPaymentConfig)
    (periodType : PeriodType := PeriodType.yearly) : List AmortizationRow :=
  if principal ≤ 0 ∨ years = 0 then []
  else
    let monthlyRate := annualRate / 100 / 12
    let standardNumPayments : ℕ := years * 12
    let standardMonthlyPayment :=
      if monthlyRate = 0 then principal / standardNumPayments
      else
        (principal * (monthlyRate * (1 + monthlyRate) ^ standardNumPayments)) /
          ((1 + monthlyRate) ^ standardNumPayments - 1)
    let biweeklyExtra :=
      if extraPayment.type = ExtraPaymentType.biweekly then standardMonthlyPayment / 12
      else 0
    match periodType with
    | PeriodType.monthly =>
      genExtraRowsMonthly monthlyRate standardMonthlyPayment extraPayment biweeklyExtra
        (standardNumPayments * 2) 0 principal 0 0
    | PeriodType.yearly =>
      genExtraRowsYearly monthlyRate standardMonthlyPayment extraPayment biweeklyExtra
        (years * 2) 0 0 principal 0 0

/-! ## Helper definitions and lemmas for the claims -/

/-- The standard annuity monthly payment over `n` months, exactly the
formula the source inlines wherever it amortizes a balance
(calculations.ts, lines 192-203, 263-271, 459-465, 557-563): used in
claim statements to say "this balance is amortized over `n` months". -/
def annuityMonthlyPayment (amount monthlyRate : ℚ) (n : ℕ) : ℚ :=
  if monthlyRate = 0 then amount / n
  else (amount * (monthlyRate * (1 + monthlyRate) ^ n)) / ((1 + monthlyRate) ^ n - 1)

/-- `a` and `b` agree within relative tolerance `tol` (used to state the
spec's "within 1e-6 relative tolerance"). -/
def relClose (tol a b : ℚ) : Prop :=
  |a - b| ≤ tol * max |a| |b|

instance (tol a b : ℚ) : Decidable (relClose tol a b) := by
  unfold relClose; infer_instance

lemma monthlyRate_eq_zero_iff (annualRate : ℚ) :
    annualRate / 100 / 12 = 0 ↔ annualRate = 0 := by
  constructor
  · intro h
    field_simp at h
    exact h
  · intro h
    simp [h]

/-- CLAIM C1: for principal > 0, annualRate ≥ 0, years > 0,
`calculateLoanPayment` satisfies `totalPayment = monthlyPayment * (years*12)`
(here exactly, hence within the claimed 1e-6 relative tolerance) and
`totalInterest = totalPayment - principal`; for annualRate = 0 it returns
`monthlyPayment = principal / (years*12)` exactly and `totalInterest = 0`. -/
theorem calculateLoanPayment_totals (principal annualRate : ℚ) (years : ℕ)
    (hp : 0 < principal) (hr : 0 ≤ annualRate) (hy : 0 < years) :
    (calculateLoanPayment principal annualRate years).totalPayment
        = (calculateLoanPayment principal annualRate years).monthlyPayment * ((years * 12 : ℕ) : ℚ)
      ∧ (calculateLoanPayment principal annualRate years).totalInterest
        = (calculateLoanPayment principal annualRate years).totalPayment - principal
      ∧ (annualRate = 0 →
          (calculateLoanPayment principal annualRate years).monthlyPayment
              = principal / ((years * 12 : ℕ) : ℚ)
            ∧ (calculateLoanPayment principal annualRate years).totalInterest = 0) := by
  have hg : ¬(principal ≤ 0 ∨ years = 0) := by
    push_neg
    exact ⟨hp, Nat.pos_iff_ne_zero.mp hy⟩
  have hn : ((years * 12 : ℕ) : ℚ) ≠ 0 := by
    have h12 : years * 12 ≠ 0 := by positivity
    exact_mod_cast h12
  simp only [calculateLoanPayment, if_neg hg]
  by_cases h0 : annualRate / 100 / 12 = 0
  · have hr0 : annualRate = 0 := (monthlyRate_eq_zero_iff annualRate).mp h0
    simp only [if_pos h0]
    refine ⟨?_, by simp, fun _ => ⟨trivial, trivial⟩⟩
    field_simp
  · have hr0 : annualRate ≠ 0 := fun h => h0 ((monthlyRate_eq_zero_iff annualRate).mpr h)
    simp only [if_neg h0]
    exact ⟨trivial, trivial, fun h => absurd h hr0⟩

/-- Witness for `calculateLoanPayment_totals` at principal 25000, rate 7.5, 5 years. -/
theorem calculateLoanPayment_totals_witness :
    (calculateLoanPayment 25000 (15 / 2) 5).totalPayment
        = (calculateLoanPayment 25000 (15 / 2) 5).monthlyPayment * ((5 * 12 : ℕ) : ℚ)
      ∧ (calculateLoanPayment 25000 (15 / 2) 5).totalInterest
        = (calculateLoanPayment 25000 (15 / 2) 5).totalPayment - 25000
      ∧ ((15 / 2 : ℚ) = 0 →
          (calculateLoanPayment 25000 (15 / 2) 5).monthlyPayment = 25000 / ((5 * 12 : ℕ) : ℚ)
            ∧ (calculateLoanPayment 25000 (15 / 2) 5).totalInterest = 0) :=
  calculateLoanPayment_totals 25000 (15 / 2) 5 (by norm_num) (by norm_num) (by norm_num)

/-- CLAIM C9: for principal > 0 and years > 0, `calculateBalloonLoan`
returns interest-only monthly payments with the balloon equal to the
principal, `calculateBulletLoan` returns no monthly payment and full
compounding at maturity; both return the all-zero result when
principal ≤ 0 or years = 0. -/
theorem balloon_bullet_spec (principal annualRate : ℚ) (years : ℕ) :
    (0 < principal → 0 < years →
        (calculateBalloonLoan principal annualRate years).monthlyPayment
            = principal * (annualRate / 100 / 12)
          ∧ (calculateBalloonLoan principal annualRate years).balloonPayment = principal
          ∧ (calculateBalloonLoan principal annualRate years).totalInterest
            = (calculateBalloonLoan principal annualRate years).monthlyPayment
                * ((years * 12 : ℕ) : ℚ)
          ∧ (calculateBalloonLoan principal annualRate years).totalPayment
            = (calculateBalloonLoan principal annualRate years).totalInterest + principal
          ∧ (calculateBulletLoan principal annualRate years).monthlyPayment = 0
          ∧ (calculateBulletLoan principal annualRate years).finalPayment
            = principal * (1 + annualRate / 100 / 12) ^ (years * 12)
          ∧ (calculateBulletLoan principal annualRate years).totalInterest
            = (calculateBulletLoan principal annualRate years).finalPayment - principal
          ∧ (calculateBulletLoan principal annualRate years).totalPayment
            = (calculateBulletLoan principal annualRate years).finalPayment)
      ∧ (principal ≤ 0 ∨ years = 0 →
          calculateBalloonLoan principal annualRate years
              = { monthlyPayment := 0, balloonPayment := 0, totalPayment := 0, totalInterest := 0 }
            ∧ calculateBulletLoan principal annualRate years
              = { monthlyPayment := 0, finalPayment := 0, totalPayment := 0, totalInterest := 0 }) := by
  constructor
  · intro hp hy
    have hg : ¬(principal ≤ 0 ∨ years = 0) := by
      push_neg
      exact ⟨hp, Nat.pos_iff_ne_zero.mp hy⟩
    simp only [calculateBalloonLoan, calculateBulletLoan, if_neg hg]
    simp
  · intro hg
    simp only [calculateBalloonLoan, calculateBulletLoan, if_pos hg]
    simp

/-- Witness for `balloon_bullet_spec` at principal 100000, rate 5, 10 years
(both branches of the conjunction are dischargeable at suitable inputs;
the hypotheses of the first are discharged here). -/
theorem balloon_bullet_spec_witness :
    (calculateBalloonLoan 100000 5 10).monthlyPayment = 100000 * ((5 : ℚ) / 100 / 12)
      ∧ (calculateBalloonLoan 100000 5 10).balloonPayment = 100000
      ∧ (calculateBalloonLoan 100000 5 10).totalInterest
        = (calculateBalloonLoan 100000 5 10).monthlyPayment * ((10 * 12 : ℕ) : ℚ)
      ∧ (calculateBalloonLoan 100000 5 10).totalPayment
        = (calculateBalloonLoan 100000 5 10).totalInterest + 100000
      ∧ (calculateBulletLoan 100000 5 10).monthlyPayment = 0
      ∧ (calculateBulletLoan 100000 5 10).finalPayment
        = 100000 * (1 + (5 : ℚ) / 100 / 12) ^ (10 * 12)
      ∧ (calculateBulletLoan 100000 5 10).totalInterest
        = (calculateBulletLoan 100000 5 10).finalPayment - 100000
      ∧ (calculateBulletLoan 100000 5 10).totalPayment
        = (calculateBulletLoan 100000 5 10).finalPayment :=
  (balloon_bullet_spec 100000 5 10).1 (by norm_num) (by norm_num)

/-- CLAIM C10: `calculateMortgage` applies no non-positive guard of its
own; when downPayment ≥ homePrice the delegated payment guard zeroes only
the principal-and-interest part, while the tax / insurance / HOA
components are still reported, `loanAmount` may be non-positive, and
`totalCost = totalMonthly * years * 12`. -/
theorem calculateMortgage_no_own_guard (homePrice downPayment annualRate : ℚ) (years : ℕ)
    (annualPropertyTax annualInsurance monthlyHoa : ℚ) (h : homePrice ≤ downPayment) :
    (calculateMortgage homePrice downPayment annualRate years annualPropertyTax annualInsurance
          monthlyHoa).monthlyPrincipalInterest = 0
      ∧ (calculateMortgage homePrice downPayment annualRate years annualPropertyTax
          annualInsurance monthlyHoa).loanAmount = homePrice - downPayment
      ∧ (calculateMortgage homePrice downPayment annualRate years annualPropertyTax
          annualInsurance monthlyHoa).totalMonthly
        = annualPropertyTax / 12 + annualInsurance / 12 + monthlyHoa
      ∧ (calculateMortgage homePrice downPayment annualRate years annualPropertyTax
          annualInsurance monthlyHoa).totalCost
        = (annualPropertyTax / 12 + annualInsurance / 12 + monthlyHoa) * years * 12 := by
  have hloan : homePrice - downPayment ≤ 0 := sub_nonpos.mpr h
  simp only [calculateMortgage, calculateLoanPayment, if_pos (Or.inl hloan)]
  refine ⟨by simp, by simp, by ring, by ring⟩

/-- Witness for `calculateMortgage_no_own_guard` at a fully paid-down home. -/
theorem calculateMortgage_no_own_guard_witness :
    (calculateMortgage 100000 120000 5 30 2400 1200 100).monthlyPrincipalInterest = 0
      ∧ (calculateMortgage 100000 120000 5 30 2400 1200 100).loanAmount = 100000 - 120000
      ∧ (calculateMortgage 100000 120000 5 30 2400 1200 100).totalMonthly
        = (2400 : ℚ) / 12 + 1200 / 12 + 100
      ∧ (calculateMortgage 100000 120000 5 30 2400 1200 100).totalCost
        = ((2400 : ℚ) / 12 + 1200 / 12 + 100) * 30 * 12 :=
  calculateMortgage_no_own_guard 100000 120000 5 30 2400 1200 100 (by norm_num)

/-- Counterexample to CLAIM C3: `calculateMortgage` does NOT return a
zero/neutral result on the invalid input years = 0 — the tax, insurance
and HOA components are still reported, so `totalMonthly` is 200, not 0. -/
theorem engine_guard_counterexample :
    (calculateMortgage 100000 20000 5 0 1200 600 50).totalMonthly = 200
      ∧ (200 : ℚ) ≠ 0 := by
  constructor
  · norm_num [calculateMortgage, calculateLoanPayment]
  · norm_num

/-- CLAIM C3 (amended): every engine function is total, and
`calculateLoanPayment` returns the all-zero result on non-positive
principal or years; but `calculateInvestment` and `calculateMortgage`
apply no such guard of their own: at years = 0 the investment result is
the pass-through `(initial, initial, 0)` and the mortgage result zeroes
only the delegated monthly payment while still reporting the
tax / insurance / HOA components (with `totalCost = 0` only because the
term is zero). -/
theorem engine_guard_amended :
    (∀ (principal annualRate : ℚ) (years : ℕ), principal ≤ 0 ∨ years = 0 →
        calculateLoanPayment principal annualRate years
          = { monthlyPayment := 0, totalPayment := 0, totalInterest := 0 })
      ∧ (∀ initial monthly annualRate : ℚ,
          calculateInvestment initial monthly annualRate 0
            = { futureValue := initial, totalContributions := initial, totalInterest := 0 })
      ∧ (∀ homePrice downPayment annualRate annualPropertyTax annualInsurance monthlyHoa : ℚ,
          (calculateMortgage homePrice downPayment annualRate 0 annualPropertyTax
              annualInsurance monthlyHoa).monthlyPrincipalInterest = 0
            ∧ (calculateMortgage homePrice downPayment annualRate 0 annualPropertyTax
                annualInsurance monthlyHoa).totalMonthly
              = annualPropertyTax / 12 + annualInsurance / 12 + monthlyHoa
            ∧ (calculateMortgage homePrice downPayment annualRate 0 annualPropertyTax
                annualInsurance monthlyHoa).totalCost = 0) := by
  refine ⟨?_, ?_, ?_⟩
  · intro principal annualRate years hg
    simp [calculateLoanPayment, if_pos hg]
  · intro initial monthly annualRate
    simp only [calculateInvestment]
    split_ifs <;> simp
  · intro homePrice downPayment annualRate annualPropertyTax annualInsurance monthlyHoa
    simp only [calculateMortgage, calculateLoanPayment]
    rw [if_pos (Or.inr trivial)]
    norm_num

/-- Witness for `engine_guard_amended` at a negative principal. -/
theorem engine_guard_amended_witness :
    calculateLoanPayment (-500) 5 10
      = { monthlyPayment := 0, totalPayment := 0, totalInterest := 0 } :=
  engine_guard_amended.1 (-500) 5 10 (Or.inl (by norm_num))

/-- CLAIM C5: for principal > 0, years > 0, graceMonths > 0,
`calculateLoanWithGracePeriod` capitalizes interest monthly under
`no_payment` (`principalAfterGrace = principal * (1+r)^graceMonths`,
`graceInterest` the accrued difference, `gracePayment = 0`) and charges
flat monthly interest under `interest_only` (`gracePayment = principal*r`,
`graceInterest = gracePayment * graceMonths`, principal unchanged); in
both cases the post-grace balance is amortized with the annuity payment
over the FULL original term of years*12 months, and
`totalInterest = totalPayment - principal`. -/
theorem gracePeriod_spec (principal annualRate : ℚ) (years gracePeriodMonths : ℕ)
    (hp : 0 < principal) (hy : 0 < years) (hg : 0 < gracePeriodMonths) :
    ((calculateLoanWithGracePeriod principal annualRate years gracePeriodMonths
          GracePeriodType.no_payment).principalAfterGrace
        = principal * (1 + annualRate / 100 / 12) ^ gracePeriodMonths
      ∧ (calculateLoanWithGracePeriod principal annualRate years gracePeriodMonths
          GracePeriodType.no_payment).graceInterest
        = (calculateLoanWithGracePeriod principal annualRate years gracePeriodMonths
            GracePeriodType.no_payment).principalAfterGrace - principal
      ∧ (calculateLoanWithGracePeriod principal annualRate years gracePeriodMonths
          GracePeriodType.no_payment).gracePayment = 0
      ∧ (calculateLoanWithGracePeriod principal annualRate years gracePeriodMonths
          GracePeriodType.no_payment).monthlyPayment
        = annuityMonthlyPayment
            (principal * (1 + annualRate / 100 / 12) ^ gracePeriodMonths)
            (annualRate / 100 / 12) (years * 12)
      ∧ (calculateLoanWithGracePeriod principal annualRate years gracePeriodMonths
          GracePeriodType.no_payment).totalInterest
        = (calculateLoanWithGracePeriod principal annualRate years gracePeriodMonths
            GracePeriodType.no_payment).totalPayment - principal)
    ∧ ((calculateLoanWithGracePeriod principal annualRate years gracePeriodMonths
          GracePeriodType.interest_only).gracePayment
        = principal * (annualRate / 100 / 12)
      ∧ (calculateLoanWithGracePeriod principal annualRate years gracePeriodMonths
          GracePeriodType.interest_only).graceInterest
        = (calculateLoanWithGracePeriod principal annualRate years gracePeriodMonths
            GracePeriodType.interest_only).gracePayment * (gracePeriodMonths : ℚ)
      ∧ (calculateLoanWithGracePeriod principal annualRate years gracePeriodMonths
          GracePeriodType.interest_only).principalAfterGrace = principal
      ∧ (calculateLoanWithGracePeriod principal annualRate years gracePeriodMonths
          GracePeriodType.interest_only).monthlyPayment
        = annuityMonthlyPayment principal (annualRate / 100 / 12) (years * 12)
      ∧ (calculateLoanWithGracePeriod principal annualRate years gracePeriodMonths
          GracePeriodType.interest_only).totalInterest
        = (calculateLoanWithGracePeriod principal annualRate years gracePeriodMonths
            GracePeriodType.interest_only).totalPayment - principal) := by
  have hguard : ¬(principal ≤ 0 ∨ years = 0) := by
    push_neg
    exact ⟨hp, Nat.pos_iff_ne_zero.mp hy⟩
  have hg2 : ¬(GracePeriodType.no_payment = GracePeriodType.none ∨ gracePeriodMonths = 0) := by
    push_neg
    exact ⟨by decide, Nat.pos_iff_ne_zero.mp hg⟩
  have hg3 : ¬(GracePeriodType.interest_only = GracePeriodType.none ∨ gracePeriodMonths = 0) := by
    push_neg
    exact ⟨by decide, Nat.pos_iff_ne_zero.mp hg⟩
  constructor
  · simp only [calculateLoanWithGracePeriod, if_neg hguard, if_neg hg2, annuityMonthlyPayment]
    split_ifs <;> simp_all
  · simp only [calculateLoanWithGracePeriod, if_neg hguard, if_neg hg3, annuityMonthlyPayment]
    split_ifs <;> simp_all

/-- Witness for `gracePeriod_spec` at principal 10000, rate 6, 5 years,
6 grace months. -/
theorem gracePeriod_spec_witness :
    ((calculateLoanWithGracePeriod 10000 6 5 6 GracePeriodType.no_payment).principalAfterGrace
        = 10000 * (1 + (6 : ℚ) / 100 / 12) ^ 6
      ∧ (calculateLoanWithGracePeriod 10000 6 5 6 GracePeriodType.no_payment).graceInterest
        = (calculateLoanWithGracePeriod 10000 6 5 6
            GracePeriodType.no_payment).principalAfterGrace - 10000
      ∧ (calculateLoanWithGracePeriod 10000 6 5 6 GracePeriodType.no_payment).gracePayment = 0
      ∧ (calculateLoanWithGracePeriod 10000 6 5 6 GracePeriodType.no_payment).monthlyPayment
        = annuityMonthlyPayment (10000 * (1 + (6 : ℚ) / 100 / 12) ^ 6) ((6 : ℚ) / 100 / 12)
            (5 * 12)
      ∧ (calculateLoanWithGracePeriod 10000 6 5 6 GracePeriodType.no_payment).totalInterest
        = (calculateLoanWithGracePeriod 10000 6 5 6
            GracePeriodType.no_payment).totalPayment - 10000)
    ∧ ((calculateLoanWithGracePeriod 10000 6 5 6 GracePeriodType.interest_only).gracePayment
        = 10000 * ((6 : ℚ) / 100 / 12)
      ∧ (calculateLoanWithGracePeriod 10000 6 5 6 GracePeriodType.interest_only).graceInterest
        = (calculateLoanWithGracePeriod 10000 6 5 6
            GracePeriodType.interest_only).gracePayment * ((6 : ℕ) : ℚ)
      ∧ (calculateLoanWithGracePeriod 10000 6 5 6
          GracePeriodType.interest_only).principalAfterGrace = 10000
      ∧ (calculateLoanWithGracePeriod 10000 6 5 6 GracePeriodType.interest_only).monthlyPayment
        = annuityMonthlyPayment 10000 ((6 : ℚ) / 100 / 12) (5 * 12)
      ∧ (calculateLoanWithGracePeriod 10000 6 5 6 GracePeriodType.interest_only).totalInterest
        = (calculateLoanWithGracePeriod 10000 6 5 6
            GracePeriodType.interest_only).totalPayment - 10000) :=
  gracePeriod_spec 10000 6 5 6 (by norm_num) (by norm_num) (by norm_num)

/-- The final state of the extra-payment simulation loop of
`calculateLoanWithExtraPayments` for an active policy: the loop of
calculations.ts, lines 487-521, started from balance = principal with
the safety-cap fuel `standardNumPayments * 2`. -/
def simFinalState (principal annualRate : ℚ) (years : ℕ) (cfg : ExtraPaymentConfig) : SimState :=
  let monthlyRate := annualRate / 100 / 12
  let standardMonthlyPayment := annuityMonthlyPayment principal monthlyRate (years * 12)
  let biweeklyExtra :=
    if cfg.type = ExtraPaymentType.biweekly then standardMonthlyPayment / 12 else 0
  simLoop monthlyRate standardMonthlyPayment cfg biweeklyExtra (years * 12 * 2)
    { balance := principal, totalPaid := 0, totalInterest := 0, months := 0 }

lemma simStep_months (monthlyRate standardMonthlyPayment : ℚ) (cfg : ExtraPaymentConfig)
    (biweeklyExtra : ℚ) (s : SimState) :
    (simStep monthlyRate standardMonthlyPayment cfg biweeklyExtra s).months = s.months + 1 :=
  rfl

/-- The simulation loop can add at most `fuel` months, and if it used
strictly less it stopped because the balance fell to the epsilon. -/
lemma simLoop_months_bound (monthlyRate standardMonthlyPayment : ℚ) (cfg : ExtraPaymentConfig)
    (biweeklyExtra : ℚ) (fuel : ℕ) (s : SimState) :
    (simLoop monthlyRate standardMonthlyPayment cfg biweeklyExtra fuel s).months
        ≤ s.months + fuel
      ∧ ((simLoop monthlyRate standardMonthlyPayment cfg biweeklyExtra fuel s).months
            < s.months + fuel →
          (simLoop monthlyRate standardMonthlyPayment cfg biweeklyExtra fuel s).balance
            ≤ 1 / 100) := by
  induction fuel generalizing s with
  | zero => exact ⟨Nat.le_refl _, fun h => absurd h (by simp [simLoop])⟩
  | succ fuel ih =>
    by_cases hb : s.balance > 1 / 100
    · have heq : simLoop monthlyRate standardMonthlyPayment cfg biweeklyExtra (fuel + 1) s
          = simLoop monthlyRate standardMonthlyPayment cfg biweeklyExtra fuel
              (simStep monthlyRate standardMonthlyPayment cfg biweeklyExtra s) := by
        rw [simLoop, if_pos hb]
      rw [heq]
      obtain ⟨h1, h2⟩ := ih (simStep monthlyRate standardMonthlyPayment cfg biweeklyExtra s)
      rw [simStep_months] at h1 h2
      exact ⟨by omega, fun h => h2 (by omega)⟩
    · have heq : simLoop monthlyRate standardMonthlyPayment cfg biweeklyExtra (fuel + 1) s = s := by
        rw [simLoop, if_neg hb]
      rw [heq]
      exact ⟨by omega, fun _ => le_of_not_lt hb⟩

/-- For an active policy, `calculateLoanWithExtraPayments` reports the
months, total paid and total interest of the simulation loop's final
state. -/
lemma calcExtra_eq_simFinal (principal annualRate : ℚ) (years : ℕ) (cfg : ExtraPaymentConfig)
    (hguard : ¬(principal ≤ 0 ∨ years = 0)) (ht : ¬cfg.type = ExtraPaymentType.none) :
    (calculateLoanWithExtraPayments principal annualRate years cfg).actualMonths
        = (simFinalState principal annualRate years cfg).months
      ∧ (calculateLoanWithExtraPayments principal annualRate years cfg).actualTotalInterest
        = (simFinalState principal annualRate years cfg).totalInterest
      ∧ (calculateLoanWithExtraPayments principal annualRate years cfg).actualTotalPayment
        = (simFinalState principal annualRate years cfg).totalPaid := by
  simp only [calculateLoanWithExtraPayments, simFinalState, annuityMonthlyPayment,
    if_neg hguard, if_neg ht]
  refine ⟨?_, ?_, ?_⟩ <;> trivial

/-- CLAIM C6: for principal > 0 and years > 0 the extra-payment
simulation terminates: `actualMonths ≤ 2 * (years*12)`, and for an
active policy, whenever the loop stopped before the safety cap the
final running balance is at or below the 0.01 epsilon (no residual
balance above the epsilon is left outstanding). -/
theorem extraPayment_loop_bound (principal annualRate : ℚ) (years : ℕ)
    (cfg : ExtraPaymentConfig) (hp : 0 < principal) (hy : 0 < years) :
    (calculateLoanWithExtraPayments principal annualRate years cfg).actualMonths
        ≤ 2 * (years * 12)
      ∧ (cfg.type ≠ ExtraPaymentType.none →
          (calculateLoanWithExtraPayments principal annualRate years cfg).actualMonths
              = (simFinalState principal annualRate years cfg).months
            ∧ ((simFinalState principal annualRate years cfg).months < 2 * (years * 12) →
                (simFinalState principal annualRate years cfg).balance ≤ 1 / 100)) := by
  have hguard : ¬(principal ≤ 0 ∨ years = 0) := by
    push_neg
    exact ⟨hp, Nat.pos_iff_ne_zero.mp hy⟩
  obtain ⟨hle, hstop⟩ := simLoop_months_bound (annualRate / 100 / 12)
    (annuityMonthlyPayment principal (annualRate / 100 / 12) (years * 12)) cfg
    (if cfg.type = ExtraPaymentType.biweekly
      then annuityMonthlyPayment principal (annualRate / 100 / 12) (years * 12) / 12 else 0)
    (years * 12 * 2)
    { balance := principal, totalPaid := 0, totalInterest := 0, months := 0 }
  have hfs : (simFinalState principal annualRate years cfg).months ≤ years * 12 * 2 := by
    simpa [simFinalState] using hle
  have hfs2 : (simFinalState principal annualRate years cfg).months < years * 12 * 2 →
      (simFinalState principal annualRate years cfg).balance ≤ 1 / 100 := by
    intro h
    have := hstop (by simpa using h)
    simpa [simFinalState] using this
  by_cases ht : cfg.type = ExtraPaymentType.none
  · constructor
    · simp only [calculateLoanWithExtraPayments, if_neg hguard, if_pos ht]
      omega
    · intro h
      exact absurd ht h
  · obtain ⟨hm, _, _⟩ := calcExtra_eq_simFinal principal annualRate years cfg hguard ht
    refine ⟨?_, fun _ => ⟨hm, fun h => hfs2 (by omega)⟩⟩
    rw [hm]
    omega

/-- Witness for `extraPayment_loop_bound` at principal 1000, rate 5,
2 years, with a 100/month extra-payment policy. -/
theorem extraPayment_loop_bound_witness :
    (calculateLoanWithExtraPayments 1000 5 2
          ⟨ExtraPaymentType.extra_monthly, 100, 0, 0⟩).actualMonths ≤ 2 * (2 * 12)
      ∧ ((⟨ExtraPaymentType.extra_monthly, 100, 0, 0⟩ : ExtraPaymentConfig).type
            ≠ ExtraPaymentType.none →
          (calculateLoanWithExtraPayments 1000 5 2
              ⟨ExtraPaymentType.extra_monthly, 100, 0, 0⟩).actualMonths
              = (simFinalState 1000 5 2 ⟨ExtraPaymentType.extra_monthly, 100, 0, 0⟩).months
            ∧ ((simFinalState 1000 5 2
                  ⟨ExtraPaymentType.extra_monthly, 100, 0, 0⟩).months < 2 * (2 * 12) →
                (simFinalState 1000 5 2
                  ⟨ExtraPaymentType.extra_monthly, 100, 0, 0⟩).balance ≤ 1 / 100)) :=
  extraPayment_loop_bound 1000 5 2 ⟨ExtraPaymentType.extra_monthly, 100, 0, 0⟩
    (by norm_num) (by norm_num)

lemma invBalIter_succ_left (monthlyRate monthly b : ℚ) (k : ℕ) :
    invBalIter monthlyRate monthly (invStepBal monthlyRate monthly b) k
      = invBalIter monthlyRate monthly b (k + 1) := by
  induction k with
  | zero => rfl
  | succ k ih => simp only [invBalIter, ih]

lemma invBalIter_add (monthlyRate monthly b : ℚ) (j k : ℕ) :
    invBalIter monthlyRate monthly b (j + k)
      = invBalIter monthlyRate monthly (invBalIter monthlyRate monthly b j) k := by
  induction k with
  | zero => rfl
  | succ k ih =>
    show invStepBal monthlyRate monthly (invBalIter monthlyRate monthly b (j + k))
      = invStepBal monthlyRate monthly
          (invBalIter monthlyRate monthly (invBalIter monthlyRate monthly b j) k)
    rw [ih]

/-- The inner 12-month loop of the investment schedule advances the
balance exactly like `fuel` applications of the monthly step. -/
lemma invYearMonths_balance (monthlyRate monthly : ℚ) (fuel : ℕ) (a : ℚ × ℚ × ℚ) :
    (invYearMonths monthlyRate monthly fuel a).1
      = invBalIter monthlyRate monthly a.1 fuel := by
  induction fuel generalizing a with
  | zero => rfl
  | succ fuel ih =>
    have hstep : invYearMonths monthlyRate monthly (fuel + 1) a
        = invYearMonths monthlyRate monthly fuel
            (invStepBal monthlyRate monthly a.1, a.2.1 + monthly, a.2.2 + a.1 * monthlyRate) := by
      rw [invYearMonths]
      rfl
    rw [hstep, ih]
    exact invBalIter_succ_left monthlyRate monthly a.1 fuel

/-- The last row of the per-year investment loop carries the balance
after `12 * fuel` monthly steps. -/
lemma invRows_getLastD_balance (monthlyRate monthly : ℚ) (fuel : ℕ) (year : ℕ) (b tc : ℚ)
    (d : InvestmentGrowthRow) (hf : fuel ≠ 0) :
    ((invRows monthlyRate monthly fuel year b tc).getLastD d).balance
      = invBalIter monthlyRate monthly b (12 * fuel) := by
  induction fuel generalizing year b tc d with
  | zero => exact absurd rfl hf
  | succ fuel ih =>
    rw [invRows, List.getLastD_cons]
    by_cases h0 : fuel = 0
    · subst h0
      simp only [invRows, List.getLastD_nil]
      exact invYearMonths_balance monthlyRate monthly 12 (b, tc, 0)
    · rw [ih _ _ _ _ h0, invYearMonths_balance monthlyRate monthly 12 (b, tc, 0)]
      have h12 : 12 * (fuel + 1) = 12 + 12 * fuel := by ring
      rw [h12, invBalIter_add]

lemma invBalIter_closed_zero (monthly b : ℚ) (N : ℕ) :
    invBalIter 0 monthly b N = b + monthly * N := by
  induction N with
  | zero => simp [invBalIter]
  | succ N ih =>
    simp only [invBalIter, invStepBal, ih]
    push_cast
    ring

lemma invBalIter_closed (monthlyRate monthly b : ℚ) (N : ℕ) (hr : monthlyRate ≠ 0) :
    invBalIter monthlyRate monthly b N
      = b * (1 + monthlyRate) ^ N
          + monthly * (((1 + monthlyRate) ^ N - 1) / monthlyRate) := by
  induction N with
  | zero => simp [invBalIter]
  | succ N ih =>
    simp only [invBalIter, invStepBal, ih, pow_succ]
    field_simp
    ring

/-- Counterexample to CLAIM C8: for the negative annual rate -12 the
closed-form `calculateInvestment` future value (1200, because the
rate ≤ 0 branch ignores compounding of contributions) differs from the
iterative schedule's final balance by far more than the 1e-6 relative
tolerance. -/
theorem investment_crosscheck_counterexample :
    ¬relClose (1 / 1000000) (calculateInvestment 0 100 (-12) 1).futureValue
      ((generateInvestmentSchedule 0 100 (-12) 1).getLastD
        { year := 0, contributions := 0, interest := 0, balance := 0 }).balance := by
  have h1 : (calculateInvestment 0 100 (-12) 1).futureValue = 1200 := by
    norm_num [calculateInvestment]
  have hlast : ((generateInvestmentSchedule 0 100 (-12) 1).getLastD
        { year := 0, contributions := 0, interest := 0, balance := 0 }).balance
      = invBalIter ((-12 : ℚ) / 100 / 12) 100 0 (12 * 1) := by
    simp only [generateInvestmentSchedule, List.getLastD_cons]
    exact invRows_getLastD_balance ((-12 : ℚ) / 100 / 12) 100 1 0 0 0 _ (by norm_num)
  have h2 : ((generateInvestmentSchedule 0 100 (-12) 1).getLastD
        { year := 0, contributions := 0, interest := 0, balance := 0 }).balance
      = 113615128283870719341199 / 100000000000000000000 := by
    rw [hlast, invBalIter_closed ((-12 : ℚ) / 100 / 12) 100 0 (12 * 1) (by norm_num)]
    norm_num
  simp only [relClose, h1, h2]
  rw [abs_of_pos (by norm_num), abs_of_pos (by norm_num), abs_of_pos (by norm_num)]
  rw [max_eq_left (by norm_num)]
  norm_num

/-- CLAIM C8 (amended): for every initial, monthly contribution,
annual rate ≥ 0 and years > 0, the closed-form `calculateInvestment`
future value equals the final balance of the iterative
`generateInvestmentSchedule` EXACTLY in the rational model (hence within
the claimed 1e-6 relative tolerance); for negative rates the two
disagree (see the counterexample). -/
theorem investment_crosscheck (initial monthly annualRate : ℚ) (years : ℕ)
    (hr : 0 ≤ annualRate) (hy : 0 < years) :
    generateInvestmentSchedule initial monthly annualRate years ≠ []
      ∧ ((generateInvestmentSchedule initial monthly annualRate years).getLastD
            { year := 0, contributions := 0, interest := 0, balance := 0 }).balance
        = (calculateInvestment initial monthly annualRate years).futureValue := by
  refine ⟨by simp [generateInvestmentSchedule], ?_⟩
  have hlast : ((generateInvestmentSchedule initial monthly annualRate years).getLastD
        { year := 0, contributions := 0, interest := 0, balance := 0 }).balance
      = invBalIter (annualRate / 100 / 12) monthly initial (12 * years) := by
    simp only [generateInvestmentSchedule, List.getLastD_cons]
    exact invRows_getLastD_balance (annualRate / 100 / 12) monthly years 0 initial initial _
      (Nat.pos_iff_ne_zero.mp hy)
  rw [hlast]
  rcases eq_or_lt_of_le hr with h0 | hpos
  · have hmr : annualRate / 100 / 12 = 0 := by rw [← h0]; norm_num
    have hmrneg : ¬annualRate / 100 / 12 > 0 := by rw [hmr]; norm_num
    simp only [calculateInvestment, hmr, invBalIter_closed_zero]
    rw [if_neg (lt_irrefl (0 : ℚ))]
    push_cast
    ring
  · have hmr : 0 < annualRate / 100 / 12 := by positivity
    simp only [calculateInvestment, if_pos hmr]
    rw [invBalIter_closed (annualRate / 100 / 12) monthly initial (12 * years) (ne_of_gt hmr)]
    rw [Nat.mul_comm 12 years]

/-- Witness for `investment_crosscheck` at initial 10000, monthly 500,
rate 8, 20 years. -/
theorem investment_crosscheck_witness :
    generateInvestmentSchedule 10000 500 8 20 ≠ []
      ∧ ((generateInvestmentSchedule 10000 500 8 20).getLastD
            { year := 0, contributions := 0, interest := 0, balance := 0 }).balance
        = (calculateInvestment 10000 500 8 20).futureValue :=
  investment_crosscheck 10000 500 8 20 (by norm_num) (by norm_num)

lemma simLoop_zero (monthlyRate standardMonthlyPayment : ℚ) (cfg : ExtraPaymentConfig)
    (biweeklyExtra : ℚ) (s : SimState) :
    simLoop monthlyRate standardMonthlyPayment cfg biweeklyExtra 0 s = s :=
  rfl

lemma simLoop_go (monthlyRate standardMonthlyPayment : ℚ) (cfg : ExtraPaymentConfig)
    (biweeklyExtra : ℚ) (fuel : ℕ) (s : SimState) (h : s.balance > 1 / 100) :
    simLoop monthlyRate standardMonthlyPayment cfg biweeklyExtra (fuel + 1) s
      = simLoop monthlyRate standardMonthlyPayment cfg biweeklyExtra fuel
          (simStep monthlyRate standardMonthlyPayment cfg biweeklyExtra s) := by
  rw [simLoop, if_pos h]

lemma simLoop_stop (monthlyRate standardMonthlyPayment : ℚ) (cfg : ExtraPaymentConfig)
    (biweeklyExtra : ℚ) (fuel : ℕ) (s : SimState) (h : ¬s.balance > 1 / 100) :
    simLoop monthlyRate standardMonthlyPayment cfg biweeklyExtra (fuel + 1) s = s := by
  rw [simLoop, if_neg h]

lemma extraFor_nonneg (cfg : ExtraPaymentConfig) (biweeklyExtra : ℚ) (month : ℕ)
    (hbw : 0 ≤ biweeklyExtra) (hem : 0 ≤ cfg.extraMonthly) (hey : 0 ≤ cfg.extraYearlyAmount) :
    0 ≤ extraFor cfg biweeklyExtra month := by
  unfold extraFor
  cases cfg.type with
  | none => exact le_refl 0
  | extra_monthly => exact hem
  | biweekly => exact hbw
  | extra_yearly =>
    dsimp only
    split_ifs
    · exact hey
    · exact le_refl 0

/-- The simulator and the with-extra generator compute the same new
balance in a month: capping the base payment at `balance + interest`
before adding the extra (simulator) or not (generator) makes no
difference to the applied principal, for a non-negative extra. -/
lemma stepBalance_eq (M b i e : ℚ) (he : 0 ≤ e) :
    max 0 (b - min (min M (b + i) - i + e) b) = max 0 (b - min (M - i + e) b) := by
  rcases le_total M (b + i) with h | h
  · rw [min_eq_left h]
  · rw [min_eq_right h]
    have h1 : min (b + i - i + e) b = b := min_eq_right (by linarith)
    have h2 : min (M - i + e) b = b := min_eq_right (by linarith)
    rw [h1, h2]

/-- The generator's row payment for a month never exceeds what the
simulator adds to `totalPaid` in that month. -/
lemma stepPay_le (M b i e : ℚ) (hM : 0 ≤ M) (hb : 0 ≤ b) (hi : 0 ≤ i) (he : 0 ≤ e) :
    i + min (M - i + e) b
      ≤ min M (b + i) + min e (min (min M (b + i) - i + e) b + i) := by
  rcases le_total M (b + i) with h | h
  · rw [min_eq_left h]
    rcases le_total (M - i + e) b with h2 | h2
    · rw [min_eq_left h2]
      have h3 : min e (M - i + e + i) = e := min_eq_left (by linarith)
      rw [h3]
      linarith
    · rw [min_eq_right h2]
      rcases le_total e (b + i) with h3 | h3
      · rw [min_eq_left h3]
        linarith
      · rw [min_eq_right h3]
        linarith
  · rw [min_eq_right h]
    have h1 : min (M - i + e) b = b := min_eq_right (by linarith)
    have h2 : min (b + i - i + e) b = b := min_eq_right (by linarith)
    rw [h1, h2]
    have h3 : 0 ≤ min e (b + i) := le_min he (by linarith)
    linarith

lemma annuityMonthlyPayment_pos (amount monthlyRate : ℚ) (n : ℕ)
    (ha : 0 < amount) (hmr : 0 ≤ monthlyRate) (hn : n ≠ 0) :
    0 < annuityMonthlyPayment amount monthlyRate n := by
  unfold annuityMonthlyPayment
  split_ifs with h
  · have hnq : (0 : ℚ) < (n : ℚ) := by exact_mod_cast Nat.pos_of_ne_zero hn
    exact div_pos ha hnq
  · have hmr2 : 0 < monthlyRate := lt_of_le_of_ne hmr (Ne.symm h)
    have hq : 1 < 1 + monthlyRate := by linarith
    have hqn : 1 < (1 + monthlyRate) ^ n := one_lt_pow₀ hq hn
    have hnum : 0 < amount * (monthlyRate * (1 + monthlyRate) ^ n) := by positivity
    have hden : 0 < (1 + monthlyRate) ^ n - 1 := by linarith
    exact div_pos hnum hden

lemma genExtraRows_zero (monthlyRate M : ℚ) (cfg : ExtraPaymentConfig) (bw : ℚ)
    (month : ℕ) (b tP tI : ℚ) :
    genExtraRowsMonthly monthlyRate M cfg bw 0 month b tP tI = [] :=
  rfl

lemma genExtraRows_stop (monthlyRate M : ℚ) (cfg : ExtraPaymentConfig) (bw : ℚ)
    (fuel month : ℕ) (b tP tI : ℚ) (h : ¬b > 1 / 100) :
    genExtraRowsMonthly monthlyRate M cfg bw (fuel + 1) month b tP tI = [] := by
  rw [genExtraRowsMonthly, if_neg h]

lemma genExtraRows_go (monthlyRate M : ℚ) (cfg : ExtraPaymentConfig) (bw : ℚ)
    (fuel month : ℕ) (b tP tI : ℚ) (h : b > 1 / 100) :
    genExtraRowsMonthly monthlyRate M cfg bw (fuel + 1) month b tP tI
      = { period := month + 1
          payment := b * monthlyRate
            + min (M - b * monthlyRate + extraFor cfg bw (month + 1)) b
          principal := min (M - b * monthlyRate + extraFor cfg bw (month + 1)) b
          interest := b * monthlyRate
          balance := max 0 (b - min (M - b * monthlyRate + extraFor cfg bw (month + 1)) b)
          totalPrincipal := tP + min (M - b * monthlyRate + extraFor cfg bw (month + 1)) b
          totalInterest := tI + b * monthlyRate } ::
        genExtraRowsMonthly monthlyRate M cfg bw fuel (month + 1)
          (max 0 (b - min (M - b * monthlyRate + extraFor cfg bw (month + 1)) b))
          (tP + min (M - b * monthlyRate + extraFor cfg bw (month + 1)) b)
          (tI + b * monthlyRate) := by
  rw [genExtraRowsMonthly, if_pos h]

lemma simStep_explicit (monthlyRate M : ℚ) (cfg : ExtraPaymentConfig) (bw : ℚ)
    (b tPd tI : ℚ) (month : ℕ) :
    simStep monthlyRate M cfg bw { balance := b, totalPaid := tPd, totalInterest := tI, months := month }
      = { balance := max 0 (b - min (min M (b + b * monthlyRate) - b * monthlyRate
            + extraFor cfg bw (month + 1)) b)
          totalPaid := tPd + (min M (b + b * monthlyRate)
            + min (extraFor cfg bw (month + 1))
                (min (min M (b + b * monthlyRate) - b * monthlyRate
                  + extraFor cfg bw (month + 1)) b + b * monthlyRate))
          totalInterest := tI + b * monthlyRate
          months := month + 1 } :=
  rfl

/-- Core bisimulation between the monthly with-extra schedule generator
and the extra-payment simulator: started from the same balance, month
counter and interest accumulator, the generator emits exactly one row
per simulator iteration, its last row carries the simulator's
accumulated interest, and its payments sum to at most the simulator's
accumulated total paid. -/
lemma genSim_consistent (monthlyRate M : ℚ) (cfg : ExtraPaymentConfig) (bw : ℚ)
    (hM : 0 ≤ M) (hmr : 0 ≤ monthlyRate) (hbw : 0 ≤ bw)
    (hem : 0 ≤ cfg.extraMonthly) (hey : 0 ≤ cfg.extraYearlyAmount) :
    ∀ (fuel month : ℕ) (b tP tI tPd : ℚ),
      (genExtraRowsMonthly monthlyRate M cfg bw fuel month b tP tI).length + month
          = (simLoop monthlyRate M cfg bw fuel
              { balance := b, totalPaid := tPd, totalInterest := tI, months := month }).months
        ∧ (∀ d : AmortizationRow, d.totalInterest = tI →
            ((genExtraRowsMonthly monthlyRate M cfg bw fuel month b tP tI).getLastD d).totalInterest
              = (simLoop monthlyRate M cfg bw fuel
                  { balance := b, totalPaid := tPd, totalInterest := tI, months := month }).totalInterest)
        ∧ ((genExtraRowsMonthly monthlyRate M cfg bw fuel month b tP tI).map
              AmortizationRow.payment).sum + tPd
          ≤ (simLoop monthlyRate M cfg bw fuel
              { balance := b, totalPaid := tPd, totalInterest := tI, months := month }).totalPaid := by
  intro fuel
  induction fuel with
  | zero =>
    intro month b tP tI tPd
    refine ⟨by simp [genExtraRows_zero, simLoop_zero], fun d hd => ?_,
      by simp [genExtraRows_zero, simLoop_zero]⟩
    simpa [genExtraRows_zero, simLoop_zero] using hd
  | succ fuel ih =>
    intro month b tP tI tPd
    by_cases hb : b > 1 / 100
    · have hb0 : (0 : ℚ) ≤ b := by linarith
      have hi : (0 : ℚ) ≤ b * monthlyRate := mul_nonneg hb0 hmr
      have he : 0 ≤ extraFor cfg bw (month + 1) :=
        extraFor_nonneg cfg bw (month + 1) hbw hem hey
      have hbal : max 0 (b - min (min M (b + b * monthlyRate) - b * monthlyRate
            + extraFor cfg bw (month + 1)) b)
          = max 0 (b - min (M - b * monthlyRate + extraFor cfg bw (month + 1)) b) :=
        stepBalance_eq M b (b * monthlyRate) (extraFor cfg bw (month + 1)) he
      rw [genExtraRows_go monthlyRate M cfg bw fuel month b tP tI hb,
        simLoop_go monthlyRate M cfg bw fuel _ hb,
        simStep_explicit monthlyRate M cfg bw b tPd tI month, hbal]
      obtain ⟨ih1, ih2, ih3⟩ := ih (month + 1)
        (max 0 (b - min (M - b * monthlyRate + extraFor cfg bw (month + 1)) b))
        (tP + min (M - b * monthlyRate + extraFor cfg bw (month + 1)) b)
        (tI + b * monthlyRate)
        (tPd + (min M (b + b * monthlyRate)
          + min (extraFor cfg bw (month + 1))
              (min (min M (b + b * monthlyRate) - b * monthlyRate
                + extraFor cfg bw (month + 1)) b + b * monthlyRate)))
      refine ⟨?_, ?_, ?_⟩
      · rw [List.length_cons]
        omega
      · intro d hd
        rw [List.getLastD_cons]
        exact ih2 _ rfl
      · rw [List.map_cons, List.sum_cons]
        have hpay : b * monthlyRate
              + min (M - b * monthlyRate + extraFor cfg bw (month + 1)) b
            ≤ min M (b + b * monthlyRate)
              + min (extraFor cfg bw (month + 1))
                  (min (min M (b + b * monthlyRate) - b * monthlyRate
                    + extraFor cfg bw (month + 1)) b + b * monthlyRate) :=
          stepPay_le M b (b * monthlyRate) (extraFor cfg bw (month + 1)) hM hb0 hi he
        calc ({ period := month + 1
                payment := b * monthlyRate
                  + min (M - b * monthlyRate + extraFor cfg bw (month + 1)) b
                principal := min (M - b * monthlyRate + extraFor cfg bw (month + 1)) b
                interest := b * monthlyRate
                balance := max 0 (b - min (M - b * monthlyRate
                  + extraFor cfg bw (month + 1)) b)
                totalPrincipal := tP + min (M - b * monthlyRate
                  + extraFor cfg bw (month + 1)) b
                totalInterest := tI + b * monthlyRate } : AmortizationRow).payment
              + ((genExtraRowsMonthly monthlyRate M cfg bw fuel (month + 1)
                  (max 0 (b - min (M - b * monthlyRate + extraFor cfg bw (month + 1)) b))
                  (tP + min (M - b * monthlyRate + extraFor cfg bw (month + 1)) b)
                  (tI + b * monthlyRate)).map AmortizationRow.payment).sum + tPd
            ≤ ((genExtraRowsMonthly monthlyRate M cfg bw fuel (month + 1)
                  (max 0 (b - min (M - b * monthlyRate + extraFor cfg bw (month + 1)) b))
                  (tP + min (M - b * monthlyRate + extraFor cfg bw (month + 1)) b)
                  (tI + b * monthlyRate)).map AmortizationRow.payment).sum
              + (tPd + (min M (b + b * monthlyRate)
                + min (extraFor cfg bw (month + 1))
                    (min (min M (b + b * monthlyRate) - b * monthlyRate
                      + extraFor cfg bw (month + 1)) b + b * monthlyRate))) := by
                dsimp only
                linarith
          _ ≤ _ := ih3
    · rw [genExtraRows_stop monthlyRate M cfg bw fuel month b tP tI hb,
        simLoop_stop monthlyRate M cfg bw fuel _ hb]
      refine ⟨by simp, fun d hd => by simpa using hd, by simp⟩

lemma genScheduleMonthly_eq (principal annualRate : ℚ) (years : ℕ) (cfg : ExtraPaymentConfig)
    (hguard : ¬(principal ≤ 0 ∨ years = 0)) :
    generateAmortizationScheduleWithExtra principal annualRate years cfg PeriodType.monthly
      = genExtraRowsMonthly (annualRate / 100 / 12)
          (annuityMonthlyPayment principal (annualRate / 100 / 12) (years * 12)) cfg
          (if cfg.type = ExtraPaymentType.biweekly
            then annuityMonthlyPayment principal (annualRate / 100 / 12) (years * 12) / 12
            else 0)
          (years * 12 * 2) 0 principal 0 0 := by
  simp only [generateAmortizationScheduleWithExtra, annuityMonthlyPayment, if_neg hguard]

/-- CLAIM C2 (amended): for identical inputs with an active policy and
non-negative extra amounts, the monthly with-extra generator runs the
same per-month loop as the simulator (same 0.01 epsilon, same 2x safety
cap): it produces exactly `actualMonths` rows and its last row's
`totalInterest` equals `actualTotalInterest`; but the sum of the rows'
`payment` fields is only ≤ `actualTotalPayment` — the simulator counts
the capped extra payment in the final month on top of the
balance-clearing payment, so equality fails (see the counterexample). -/
theorem generator_simulator_consistent (principal annualRate : ℚ) (years : ℕ)
    (cfg : ExtraPaymentConfig) (hp : 0 < principal) (hy : 0 < years) (hr : 0 ≤ annualRate)
    (ht : cfg.type ≠ ExtraPaymentType.none)
    (hem : 0 ≤ cfg.extraMonthly) (hey : 0 ≤ cfg.extraYearlyAmount) :
    (generateAmortizationScheduleWithExtra principal annualRate years cfg
          PeriodType.monthly).length
        = (calculateLoanWithExtraPayments principal annualRate years cfg).actualMonths
      ∧ ((generateAmortizationScheduleWithExtra principal annualRate years cfg
            PeriodType.monthly).getLastD
            { period := 0, payment := 0, principal := 0, interest := 0, balance := 0
              totalPrincipal := 0, totalInterest := 0 }).totalInterest
        = (calculateLoanWithExtraPayments principal annualRate years cfg).actualTotalInterest
      ∧ ((generateAmortizationScheduleWithExtra principal annualRate years cfg
            PeriodType.monthly).map AmortizationRow.payment).sum
        ≤ (calculateLoanWithExtraPayments principal annualRate years cfg).actualTotalPayment := by
  have hguard : ¬(principal ≤ 0 ∨ years = 0) := by
    push_neg
    exact ⟨hp, Nat.pos_iff_ne_zero.mp hy⟩
  have hmr : 0 ≤ annualRate / 100 / 12 := by positivity
  have hMpos : 0 < annuityMonthlyPayment principal (annualRate / 100 / 12) (years * 12) :=
    annuityMonthlyPayment_pos principal (annualRate / 100 / 12) (years * 12) hp hmr
      (by positivity)
  have hbw : 0 ≤ (if cfg.type = ExtraPaymentType.biweekly
      then annuityMonthlyPayment principal (annualRate / 100 / 12) (years * 12) / 12
      else 0) := by
    split_ifs
    · positivity
    · exact le_refl 0
  obtain ⟨hm, hti, htp⟩ := calcExtra_eq_simFinal principal annualRate years cfg hguard ht
  obtain ⟨g1, g2, g3⟩ := genSim_consistent (annualRate / 100 / 12)
    (annuityMonthlyPayment principal (annualRate / 100 / 12) (years * 12)) cfg
    (if cfg.type = ExtraPaymentType.biweekly
      then annuityMonthlyPayment principal (annualRate / 100 / 12) (years * 12) / 12
      else 0)
    (le_of_lt hMpos) hmr hbw hem hey (years * 12 * 2) 0 principal 0 0 0
  have hsf : simFinalState principal annualRate years cfg
      = simLoop (annualRate / 100 / 12)
          (annuityMonthlyPayment principal (annualRate / 100 / 12) (years * 12)) cfg
          (if cfg.type = ExtraPaymentType.biweekly
            then annuityMonthlyPayment principal (annualRate / 100 / 12) (years * 12) / 12
            else 0)
          (years * 12 * 2)
          { balance := principal, totalPaid := 0, totalInterest := 0, months := 0 } := rfl
  rw [genScheduleMonthly_eq principal annualRate years cfg hguard, hm, hti, htp, hsf]
  refine ⟨by omega, ?_, by simpa using g3⟩
  exact g2 _ rfl

/-- Witness for `generator_simulator_consistent` at principal 1000,
rate 5, 2 years, 100/month extra. -/
theorem generator_simulator_consistent_witness :
    (generateAmortizationScheduleWithExtra 1000 5 2
          ⟨ExtraPaymentType.extra_monthly, 100, 0, 0⟩ PeriodType.monthly).length
        = (calculateLoanWithExtraPayments 1000 5 2
            ⟨ExtraPaymentType.extra_monthly, 100, 0, 0⟩).actualMonths
      ∧ ((generateAmortizationScheduleWithExtra 1000 5 2
            ⟨ExtraPaymentType.extra_monthly, 100, 0, 0⟩ PeriodType.monthly).getLastD
            { period := 0, payment := 0, principal := 0, interest := 0, balance := 0
              totalPrincipal := 0, totalInterest := 0 }).totalInterest
        = (calculateLoanWithExtraPayments 1000 5 2
            ⟨ExtraPaymentType.extra_monthly, 100, 0, 0⟩).actualTotalInterest
      ∧ ((generateAmortizationScheduleWithExtra 1000 5 2
            ⟨ExtraPaymentType.extra_monthly, 100, 0, 0⟩ PeriodType.monthly).map
            AmortizationRow.payment).sum
        ≤ (calculateLoanWithExtraPayments 1000 5 2
            ⟨ExtraPaymentType.extra_monthly, 100, 0, 0⟩).actualTotalPayment :=
  generator_simulator_consistent 1000 5 2 ⟨ExtraPaymentType.extra_monthly, 100, 0, 0⟩
    (by norm_num) (by norm_num) (by norm_num) (by decide) (by norm_num) (by norm_num)

/-- Counterexample to CLAIM C2 as stated: for principal 1, rate 0,
1 year, extra 50/month, the loan is cleared in the first month; the
generator's single row has payment 1 (interest 0 plus the whole
balance), but the simulator's `actualTotalPayment` is 13/12 — it counts
the base payment 1/12 AND the capped extra 1, so the sum of the rows'
payment fields does not equal `actualTotalPayment`. -/
theorem generator_simulator_payment_mismatch :
    ((generateAmortizationScheduleWithExtra 1 0 1 ⟨ExtraPaymentType.extra_monthly, 50, 0, 0⟩
          PeriodType.monthly).map AmortizationRow.payment).sum
      ≠ (calculateLoanWithExtraPayments 1 0 1
          ⟨ExtraPaymentType.extra_monthly, 50, 0, 0⟩).actualTotalPayment := by
  have hguard : ¬((1 : ℚ) ≤ 0 ∨ (1 : ℕ) = 0) := by norm_num
  have hM : annuityMonthlyPayment 1 0 12 = 1 / 12 := by
    norm_num [annuityMonthlyPayment]
  have hne : ExtraPaymentType.extra_monthly ≠ ExtraPaymentType.biweekly := by decide
  have hex : extraFor ⟨ExtraPaymentType.extra_monthly, 50, 0, 0⟩ 0 1 = 50 := rfl
  -- left-hand side: the generator emits exactly one row with payment 1
  have hsched : generateAmortizationScheduleWithExtra 1 0 1
        ⟨ExtraPaymentType.extra_monthly, 50, 0, 0⟩ PeriodType.monthly
      = genExtraRowsMonthly 0 (1 / 12) ⟨ExtraPaymentType.extra_monthly, 50, 0, 0⟩ 0
          24 0 1 0 0 := by
    rw [genScheduleMonthly_eq 1 0 1 ⟨ExtraPaymentType.extra_monthly, 50, 0, 0⟩ hguard]
    norm_num [hM, if_neg hne]
  have hrow : genExtraRowsMonthly 0 (1 / 12) ⟨ExtraPaymentType.extra_monthly, 50, 0, 0⟩ 0
        24 0 1 0 0
      = { period := 1, payment := 1 * 0 + min (1 / 12 - 1 * 0 + 50) 1
          principal := min (1 / 12 - 1 * 0 + 50) 1, interest := 1 * 0
          balance := max 0 (1 - min (1 / 12 - 1 * 0 + 50) 1)
          totalPrincipal := 0 + min (1 / 12 - 1 * 0 + 50) 1
          totalInterest := 0 + 1 * 0 } ::
        genExtraRowsMonthly 0 (1 / 12) ⟨ExtraPaymentType.extra_monthly, 50, 0, 0⟩ 0
          23 1 (max 0 (1 - min (1 / 12 - 1 * 0 + 50) 1))
          (0 + min (1 / 12 - 1 * 0 + 50) 1) (0 + 1 * 0) := by
    rw [show (24 : ℕ) = 23 + 1 by norm_num]
    have h := genExtraRows_go 0 (1 / 12) ⟨ExtraPaymentType.extra_monthly, 50, 0, 0⟩ 0
      23 0 1 0 0 (by norm_num)
    rw [h, hex]
  have hminval : min ((1 : ℚ) / 12 - 1 * 0 + 50) 1 = 1 := min_eq_right (by norm_num)
  have hrest : genExtraRowsMonthly 0 (1 / 12) ⟨ExtraPaymentType.extra_monthly, 50, 0, 0⟩ 0
        23 1 (max 0 (1 - min (1 / 12 - 1 * 0 + 50) 1))
        (0 + min (1 / 12 - 1 * 0 + 50) 1) (0 + 1 * 0) = [] := by
    rw [show (23 : ℕ) = 22 + 1 by norm_num]
    apply genExtraRows_stop
    rw [hminval]
    norm_num
  have hlhs : ((generateAmortizationScheduleWithExtra 1 0 1
        ⟨ExtraPaymentType.extra_monthly, 50, 0, 0⟩ PeriodType.monthly).map
        AmortizationRow.payment).sum = 1 := by
    rw [hsched, hrow, hrest]
    norm_num [hminval]
  -- right-hand side: the simulator pays 1/12 base plus the capped extra 1
  have ht : (⟨ExtraPaymentType.extra_monthly, 50, 0, 0⟩ : ExtraPaymentConfig).type
      ≠ ExtraPaymentType.none := by decide
  obtain ⟨-, -, htp⟩ := calcExtra_eq_simFinal 1 0 1
    ⟨ExtraPaymentType.extra_monthly, 50, 0, 0⟩ hguard ht
  have hsf : simFinalState 1 0 1 ⟨ExtraPaymentType.extra_monthly, 50, 0, 0⟩
      = simLoop 0 (1 / 12) ⟨ExtraPaymentType.extra_monthly, 50, 0, 0⟩ 0 24
          { balance := 1, totalPaid := 0, totalInterest := 0, months := 0 } := by
    simp only [simFinalState]
    norm_num [hM, if_neg hne]
  have hstep : simStep 0 (1 / 12) ⟨ExtraPaymentType.extra_monthly, 50, 0, 0⟩ 0
        { balance := 1, totalPaid := 0, totalInterest := 0, months := 0 }
      = { balance := 0, totalPaid := 13 / 12, totalInterest := 0, months := 1 } := by
    rw [simStep_explicit, hex]
    norm_num [min_def, max_def]
  have hrhs : (calculateLoanWithExtraPayments 1 0 1
        ⟨ExtraPaymentType.extra_monthly, 50, 0, 0⟩).actualTotalPayment = 13 / 12 := by
    rw [htp, hsf, show (24 : ℕ) = 23 + 1 by norm_num,
      simLoop_go _ _ _ _ 23 _ (by norm_num), hstep,
      show (23 : ℕ) = 22 + 1 by norm_num,
      simLoop_stop _ _ _ _ 22 _ (by norm_num)]
  rw [hlhs, hrhs]
  norm_num

lemma amortBalIter_succ_left (monthlyRate monthlyPayment b : ℚ) (k : ℕ) :
    amortBalIter monthlyRate monthlyPayment (amortStepBal monthlyRate monthlyPayment b) k
      = amortBalIter monthlyRate monthlyPayment b (k + 1) := by
  induction k with
  | zero => rfl
  | succ k ih => simp only [amortBalIter, ih]

lemma amortRowsMonthly_length (monthlyRate monthlyPayment : ℚ) :
    ∀ (fuel month : ℕ) (b tP tI : ℚ),
      (amortRowsMonthly monthlyRate monthlyPayment fuel month b tP tI).length = fuel := by
  intro fuel
  induction fuel with
  | zero => intro month b tP tI; rfl
  | succ fuel ih =>
    intro month b tP tI
    simp only [amortRowsMonthly, List.length_cons, ih]

lemma amortRowsMonthly_cons (monthlyRate monthlyPayment : ℚ) (fuel month : ℕ) (b tP tI : ℚ) :
    amortRowsMonthly monthlyRate monthlyPayment (fuel + 1) month b tP tI
      = { period := month + 1, payment := monthlyPayment
          principal := monthlyPayment - b * monthlyRate, interest := b * monthlyRate
          balance := amortStepBal monthlyRate monthlyPayment b
          totalPrincipal := tP + (monthlyPayment - b * monthlyRate)
          totalInterest := tI + b * monthlyRate } ::
        amortRowsMonthly monthlyRate monthlyPayment fuel (month + 1)
          (amortStepBal monthlyRate monthlyPayment b)
          (tP + (monthlyPayment - b * monthlyRate)) (tI + b * monthlyRate) :=
  rfl

/-- Row `i` (0-based) of the monthly amortization loop: its balance is
the running balance after `i + 1` steps and its principal portion is the
payment minus interest on the balance after `i` steps. -/
lemma amortRowsMonthly_getD (monthlyRate monthlyPayment : ℚ) :
    ∀ (fuel month : ℕ) (b tP tI : ℚ) (i : ℕ) (d : AmortizationRow), i < fuel →
      ((amortRowsMonthly monthlyRate monthlyPayment fuel month b tP tI).getD i d).balance
          = amortBalIter monthlyRate monthlyPayment b (i + 1)
        ∧ ((amortRowsMonthly monthlyRate monthlyPayment fuel month b tP tI).getD i d).principal
          = monthlyPayment - amortBalIter monthlyRate monthlyPayment b i * monthlyRate := by
  intro fuel
  induction fuel with
  | zero => intro month b tP tI i d hi; omega
  | succ fuel ih =>
    intro month b tP tI i d hi
    match i with
    | 0 =>
      rw [amortRowsMonthly_cons]
      simp only [List.getD_cons_zero]
      exact ⟨rfl, rfl⟩
    | i + 1 =>
      rw [amortRowsMonthly_cons]
      simp only [List.getD_cons_succ]
      obtain ⟨h1, h2⟩ := ih (month + 1)
        (amortStepBal monthlyRate monthlyPayment b)
        (tP + (monthlyPayment - b * monthlyRate)) (tI + b * monthlyRate) i d (by omega)
      constructor
      · rw [h1, amortBalIter_succ_left]
      · rw [h2, amortBalIter_succ_left]

lemma amortRowsMonthly_getLastD_balance (monthlyRate monthlyPayment : ℚ) :
    ∀ (fuel month : ℕ) (b tP tI : ℚ) (d : AmortizationRow), fuel ≠ 0 →
      ((amortRowsMonthly monthlyRate monthlyPayment fuel month b tP tI).getLastD d).balance
        = amortBalIter monthlyRate monthlyPayment b fuel := by
  intro fuel
  induction fuel with
  | zero => intro month b tP tI d hf; exact absurd rfl hf
  | succ fuel ih =>
    intro month b tP tI d hf
    rw [amortRowsMonthly_cons, List.getLastD_cons]
    by_cases h0 : fuel = 0
    · subst h0
      simp only [amortRowsMonthly, List.getLastD_nil]
      rfl
    · rw [ih (month + 1) (amortStepBal monthlyRate monthlyPayment b) _ _ _ h0,
        amortBalIter_succ_left]

/-- The running balance stays within `[0, b0]` when the payment covers a
full month of interest on the initial balance. -/
lemma amortBalIter_bounds (monthlyRate monthlyPayment b0 : ℚ) (hb0 : 0 ≤ b0)
    (hmr : 0 ≤ monthlyRate) (hM : b0 * monthlyRate ≤ monthlyPayment) (k : ℕ) :
    0 ≤ amortBalIter monthlyRate monthlyPayment b0 k
      ∧ amortBalIter monthlyRate monthlyPayment b0 k ≤ b0 := by
  induction k with
  | zero => exact ⟨hb0, le_refl b0⟩
  | succ k ih =>
    obtain ⟨ih0, ih1⟩ := ih
    refine ⟨le_max_left 0 _, ?_⟩
    have hint : amortBalIter monthlyRate monthlyPayment b0 k * monthlyRate
        ≤ monthlyPayment :=
      le_trans (mul_le_mul_of_nonneg_right ih1 hmr) hM
    have hstep : amortStepBal monthlyRate monthlyPayment
        (amortBalIter monthlyRate monthlyPayment b0 k)
        ≤ amortBalIter monthlyRate monthlyPayment b0 k := by
      unfold amortStepBal
      rw [max_le_iff]
      exact ⟨ih0, by linarith⟩
    exact le_trans hstep ih1

lemma amortBalIter_antitone (monthlyRate monthlyPayment b0 : ℚ) (hb0 : 0 ≤ b0)
    (hmr : 0 ≤ monthlyRate) (hM : b0 * monthlyRate ≤ monthlyPayment) :
    Antitone (amortBalIter monthlyRate monthlyPayment b0) := by
  apply antitone_nat_of_succ_le
  intro k
  obtain ⟨h0, h1⟩ := amortBalIter_bounds monthlyRate monthlyPayment b0 hb0 hmr hM k
  have hint : amortBalIter monthlyRate monthlyPayment b0 k * monthlyRate ≤ monthlyPayment :=
    le_trans (mul_le_mul_of_nonneg_right h1 hmr) hM
  show amortStepBal monthlyRate monthlyPayment (amortBalIter monthlyRate monthlyPayment b0 k)
    ≤ amortBalIter monthlyRate monthlyPayment b0 k
  unfold amortStepBal
  rw [max_le_iff]
  exact ⟨h0, by linarith⟩

/-- Interest-free case: after `k ≤ n` months of paying `p / n`, the
balance is exactly `p - k * (p / n)`, so the final balance is exactly 0. -/
lemma amortBalIter_zero_rate (p : ℚ) (n : ℕ) (hp : 0 < p) (hn : n ≠ 0) :
    ∀ k, k ≤ n → amortBalIter 0 (p / n) p k = p - k * (p / n) := by
  have hnq : (0 : ℚ) < (n : ℚ) := by exact_mod_cast Nat.pos_of_ne_zero hn
  intro k
  induction k with
  | zero => intro _; simp [amortBalIter]
  | succ k ih =>
    intro hk
    have hkq : ((k : ℚ) + 1) ≤ (n : ℚ) := by exact_mod_cast hk
    have hrest : 0 ≤ p - ((k : ℚ) + 1) * (p / n) := by
      have hdiv : 0 < p / n := div_pos hp hnq
      have h1 : ((k : ℚ) + 1) * (p / n) ≤ (n : ℚ) * (p / n) :=
        mul_le_mul_of_nonneg_right hkq (le_of_lt hdiv)
      have h2 : (n : ℚ) * (p / n) = p := by field_simp
      linarith
    show amortStepBal 0 (p / n) (amortBalIter 0 (p / n) p k) = p - ((k : ℕ) + 1 : ℕ) * (p / n)
    rw [ih (by omega)]
    unfold amortStepBal
    push_cast
    rw [max_eq_right (by linarith)]
    ring

/-- Positive-rate case: the standard annuity closed form of the running
balance, valid as long as the max-with-zero clamp never fires, which is
exactly while `k ≤ n`. -/
lemma amortBalIter_closed_posrate (p monthlyRate : ℚ) (n : ℕ) (hp : 0 < p)
    (hmr : 0 < monthlyRate) (hn : n ≠ 0) :
    ∀ k, k ≤ n →
      amortBalIter monthlyRate
          (p * (monthlyRate * (1 + monthlyRate) ^ n) / ((1 + monthlyRate) ^ n - 1)) p k
        = p * ((1 + monthlyRate) ^ n - (1 + monthlyRate) ^ k)
            / ((1 + monthlyRate) ^ n - 1) := by
  have hq : 1 < 1 + monthlyRate := by linarith
  have hqn : 1 < (1 + monthlyRate) ^ n := one_lt_pow₀ hq hn
  have hden : (0 : ℚ) < (1 + monthlyRate) ^ n - 1 := by linarith
  intro k
  induction k with
  | zero =>
    intro _
    show p = p * ((1 + monthlyRate) ^ n - (1 + monthlyRate) ^ 0) / ((1 + monthlyRate) ^ n - 1)
    rw [pow_zero]
    field_simp
  | succ k ih =>
    intro hk
    have hkn : k ≤ n := by omega
    have hpow : (1 + monthlyRate) ^ (k + 1) ≤ (1 + monthlyRate) ^ n :=
      pow_le_pow_right₀ (le_of_lt hq) hk
    have hinner : amortBalIter monthlyRate
          (p * (monthlyRate * (1 + monthlyRate) ^ n) / ((1 + monthlyRate) ^ n - 1)) p k
          - (p * (monthlyRate * (1 + monthlyRate) ^ n) / ((1 + monthlyRate) ^ n - 1)
            - amortBalIter monthlyRate
                (p * (monthlyRate * (1 + monthlyRate) ^ n) / ((1 + monthlyRate) ^ n - 1)) p k
              * monthlyRate)
        = p * ((1 + monthlyRate) ^ n - (1 + monthlyRate) ^ (k + 1))
            / ((1 + monthlyRate) ^ n - 1) := by
      rw [ih hkn]
      have hden2 : (1 + monthlyRate) ^ n - 1 ≠ 0 := ne_of_gt hden
      field_simp
      ring
    have hnonneg : 0 ≤ p * ((1 + monthlyRate) ^ n - (1 + monthlyRate) ^ (k + 1))
        / ((1 + monthlyRate) ^ n - 1) := by
      apply div_nonneg _ (le_of_lt hden)
      exact mul_nonneg (le_of_lt hp) (by linarith)
    show amortStepBal monthlyRate
        (p * (monthlyRate * (1 + monthlyRate) ^ n) / ((1 + monthlyRate) ^ n - 1))
        (amortBalIter monthlyRate
          (p * (monthlyRate * (1 + monthlyRate) ^ n) / ((1 + monthlyRate) ^ n - 1)) p k)
      = p * ((1 + monthlyRate) ^ n - (1 + monthlyRate) ^ (k + 1)) / ((1 + monthlyRate) ^ n - 1)
    unfold amortStepBal
    rw [hinner, max_eq_right hnonneg]

lemma amortSchedule_monthly_eq (principal annualRate : ℚ) (years : ℕ)
    (hguard : ¬(principal ≤ 0 ∨ years = 0)) :
    generateAmortizationSchedule principal annualRate years PeriodType.monthly
      = amortRowsMonthly (annualRate / 100 / 12)
          (annuityMonthlyPayment principal (annualRate / 100 / 12) (years * 12))
          (years * 12) 0 principal 0 0 := by
  simp only [generateAmortizationSchedule, annuityMonthlyPayment, if_neg hguard]

lemma annuityMonthlyPayment_ge_interest (p monthlyRate : ℚ) (n : ℕ) (hp : 0 < p)
    (hmr : 0 ≤ monthlyRate) (hn : n ≠ 0) :
    p * monthlyRate ≤ annuityMonthlyPayment p monthlyRate n := by
  unfold annuityMonthlyPayment
  split_ifs with h
  · rw [h, mul_zero]
    have hnq : (0 : ℚ) < (n : ℚ) := by exact_mod_cast Nat.pos_of_ne_zero hn
    exact le_of_lt (div_pos hp hnq)
  · have hmr2 : 0 < monthlyRate := lt_of_le_of_ne hmr (Ne.symm h)
    have hq : 1 < 1 + monthlyRate := by linarith
    have hqn : 1 < (1 + monthlyRate) ^ n := one_lt_pow₀ hq hn
    have hden : (0 : ℚ) < (1 + monthlyRate) ^ n - 1 := by linarith
    rw [le_div_iff₀ hden]
    nlinarith [mul_pos hp hmr2]

/-- CLAIM C4: for principal > 0, rate ≥ 0, years > 0, the monthly
amortization schedule is non-empty, each row's balance is
`max 0 (previous balance - principal portion)`, the balance column is
monotonically non-increasing, and the last row's balance is EXACTLY 0
in the exact-rational model (hence "approximately 0"). -/
theorem amortizationSchedule_invariants (principal annualRate : ℚ) (years : ℕ)
    (hp : 0 < principal) (hr : 0 ≤ annualRate) (hy : 0 < years) :
    generateAmortizationSchedule principal annualRate years PeriodType.monthly ≠ []
      ∧ (∀ i : ℕ,
          i + 1 < (generateAmortizationSchedule principal annualRate years
              PeriodType.monthly).length →
          ((generateAmortizationSchedule principal annualRate years PeriodType.monthly).getD
              (i + 1)
              { period := 0, payment := 0, principal := 0, interest := 0, balance := 0
                totalPrincipal := 0, totalInterest := 0 }).balance
            = max 0
              (((generateAmortizationSchedule principal annualRate years
                    PeriodType.monthly).getD i
                  { period := 0, payment := 0, principal := 0, interest := 0, balance := 0
                    totalPrincipal := 0, totalInterest := 0 }).balance
                - ((generateAmortizationSchedule principal annualRate years
                    PeriodType.monthly).getD (i + 1)
                  { period := 0, payment := 0, principal := 0, interest := 0, balance := 0
                    totalPrincipal := 0, totalInterest := 0 }).principal))
      ∧ (∀ i j : ℕ, i ≤ j →
          j < (generateAmortizationSchedule principal annualRate years
              PeriodType.monthly).length →
          ((generateAmortizationSchedule principal annualRate years PeriodType.monthly).getD j
              { period := 0, payment := 0, principal := 0, interest := 0, balance := 0
                totalPrincipal := 0, totalInterest := 0 }).balance
            ≤ ((generateAmortizationSchedule principal annualRate years
                PeriodType.monthly).getD i
              { period := 0, payment := 0, principal := 0, interest := 0, balance := 0
                totalPrincipal := 0, totalInterest := 0 }).balance)
      ∧ ((generateAmortizationSchedule principal annualRate years
            PeriodType.monthly).getLastD
          { period := 0, payment := 0, principal := 0, interest := 0, balance := 0
            totalPrincipal := 0, totalInterest := 0 }).balance = 0 := by
  have hguard : ¬(principal ≤ 0 ∨ years = 0) := by
    push_neg
    exact ⟨hp, Nat.pos_iff_ne_zero.mp hy⟩
  have hn : years * 12 ≠ 0 := by positivity
  have hmr0 : 0 ≤ annualRate / 100 / 12 := by positivity
  have hint : principal * (annualRate / 100 / 12)
      ≤ annuityMonthlyPayment principal (annualRate / 100 / 12) (years * 12) :=
    annuityMonthlyPayment_ge_interest principal (annualRate / 100 / 12) (years * 12) hp hmr0 hn
  rw [amortSchedule_monthly_eq principal annualRate years hguard]
  have hlen : (amortRowsMonthly (annualRate / 100 / 12)
      (annuityMonthlyPayment principal (annualRate / 100 / 12) (years * 12))
      (years * 12) 0 principal 0 0).length = years * 12 :=
    amortRowsMonthly_length _ _ _ _ _ _ _
  refine ⟨?_, ?_, ?_, ?_⟩
  · intro hnil
    rw [hnil] at hlen
    exact hn hlen.symm
  · intro i hi
    rw [hlen] at hi
    obtain ⟨hb1, -⟩ := amortRowsMonthly_getD (annualRate / 100 / 12)
      (annuityMonthlyPayment principal (annualRate / 100 / 12) (years * 12))
      (years * 12) 0 principal 0 0 i
      { period := 0, payment := 0, principal := 0, interest := 0, balance := 0
        totalPrincipal := 0, totalInterest := 0 } (by omega)
    obtain ⟨hb2, hp2⟩ := amortRowsMonthly_getD (annualRate / 100 / 12)
      (annuityMonthlyPayment principal (annualRate / 100 / 12) (years * 12))
      (years * 12) 0 principal 0 0 (i + 1)
      { period := 0, payment := 0, principal := 0, interest := 0, balance := 0
        totalPrincipal := 0, totalInterest := 0 } hi
    rw [hb1, hb2, hp2]
    rfl
  · intro i j hij hj
    rw [hlen] at hj
    obtain ⟨hbi, -⟩ := amortRowsMonthly_getD (annualRate / 100 / 12)
      (annuityMonthlyPayment principal (annualRate / 100 / 12) (years * 12))
      (years * 12) 0 principal 0 0 i
      { period := 0, payment := 0, principal := 0, interest := 0, balance := 0
        totalPrincipal := 0, totalInterest := 0 } (by omega)
    obtain ⟨hbj, -⟩ := amortRowsMonthly_getD (annualRate / 100 / 12)
      (annuityMonthlyPayment principal (annualRate / 100 / 12) (years * 12))
      (years * 12) 0 principal 0 0 j
      { period := 0, payment := 0, principal := 0, interest := 0, balance := 0
        totalPrincipal := 0, totalInterest := 0 } hj
    rw [hbi, hbj]
    exact amortBalIter_antitone (annualRate / 100 / 12) _ principal (le_of_lt hp) hmr0 hint
      (by omega)
  · rw [amortRowsMonthly_getLastD_balance (annualRate / 100 / 12)
      (annuityMonthlyPayment principal (annualRate / 100 / 12) (years * 12))
      (years * 12) 0 principal 0 0 _ hn]
    by_cases h0 : annualRate = 0
    · have hmr : annualRate / 100 / 12 = 0 := by rw [h0]; norm_num
      have hmp : annuityMonthlyPayment principal (annualRate / 100 / 12) (years * 12)
          = principal / ((years * 12 : ℕ) : ℚ) := by
        unfold annuityMonthlyPayment
        rw [if_pos hmr]
      rw [hmp, hmr, amortBalIter_zero_rate principal (years * 12) hp hn (years * 12)
        (le_refl _)]
      have hnq : ((years * 12 : ℕ) : ℚ) ≠ 0 := by exact_mod_cast hn
      field_simp
    · have hmr : annualRate / 100 / 12 ≠ 0 :=
        fun h => h0 ((monthlyRate_eq_zero_iff annualRate).mp h)
      have hmr2 : 0 < annualRate / 100 / 12 := lt_of_le_of_ne hmr0 (Ne.symm hmr)
      have hmp : annuityMonthlyPayment principal (annualRate / 100 / 12) (years * 12)
          = principal * (annualRate / 100 / 12
              * (1 + annualRate / 100 / 12) ^ (years * 12))
            / ((1 + annualRate / 100 / 12) ^ (years * 12) - 1) := by
        unfold annuityMonthlyPayment
        rw [if_neg hmr]
      rw [hmp, amortBalIter_closed_posrate principal (annualRate / 100 / 12) (years * 12)
        hp hmr2 hn (years * 12) (le_refl _)]
      simp

/-- Witness for `amortizationSchedule_invariants` at principal 1000,
rate 5, 1 year. -/
theorem amortizationSchedule_invariants_witness :
    generateAmortizationSchedule 1000 5 1 PeriodType.monthly ≠ []
      ∧ (∀ i : ℕ,
          i + 1 < (generateAmortizationSchedule 1000 5 1 PeriodType.monthly).length →
          ((generateAmortizationSchedule 1000 5 1 PeriodType.monthly).getD (i + 1)
              { period := 0, payment := 0, principal := 0, interest := 0, balance := 0
                totalPrincipal := 0, totalInterest := 0 }).balance
            = max 0
              (((generateAmortizationSchedule 1000 5 1 PeriodType.monthly).getD i
                  { period := 0, payment := 0, principal := 0, interest := 0, balance := 0
                    totalPrincipal := 0, totalInterest := 0 }).balance
                - ((generateAmortizationSchedule 1000 5 1 PeriodType.monthly).getD (i + 1)
                  { period := 0, payment := 0, principal := 0, interest := 0, balance := 0
                    totalPrincipal := 0, totalInterest := 0 }).principal))
      ∧ (∀ i j : ℕ, i ≤ j →
          j < (generateAmortizationSchedule 1000 5 1 PeriodType.monthly).length →
          ((generateAmortizationSchedule 1000 5 1 PeriodType.monthly).getD j
              { period := 0, payment := 0, principal := 0, interest := 0, balance := 0
                totalPrincipal := 0, totalInterest := 0 }).balance
            ≤ ((generateAmortizationSchedule 1000 5 1 PeriodType.monthly).getD i
              { period := 0, payment := 0, principal := 0, interest := 0, balance := 0
                totalPrincipal := 0, totalInterest := 0 }).balance)
      ∧ ((generateAmortizationSchedule 1000 5 1 PeriodType.monthly).getLastD
          { period := 0, payment := 0, principal := 0, interest := 0, balance := 0
            totalPrincipal := 0, totalInterest := 0 }).balance = 0 :=
  amortizationSchedule_invariants 1000 5 1 (by norm_num) (by norm_num) (by norm_num)

/-- Algebraic shape of the simulator's one-month balance update: capping
the base payment, adding the extra, capping the principal at the balance
and flooring at zero is the same as clamping `balance + interest - M` at
zero and then subtracting the extra, clamped at zero again. -/
lemma simStep_balance_shape (M b i e : ℚ) :
    max 0 (b - min (min M (b + i) - i + e) b) = max 0 (max 0 (b + i - M) - e) := by
  rcases le_total M (b + i) with h | h
  · rw [min_eq_left h, max_eq_right (by linarith : (0 : ℚ) ≤ b + i - M)]
    rcases le_total (M - i + e) b with h2 | h2
    · rw [min_eq_left h2]
      congr 1
      ring
    · rw [min_eq_right h2, sub_self, max_eq_left (by linarith), max_eq_left (by linarith)]
  · rw [min_eq_right h, max_eq_left (by linarith : b + i - M ≤ 0)]
    rcases le_total 0 e with h2 | h2
    · rw [min_eq_right (by linarith : b ≤ b + i - i + e), sub_self,
        max_eq_left (le_refl 0), max_eq_left (by linarith)]
    · rw [min_eq_left (by linarith : b + i - i + e ≤ b)]
      congr 1
      ring

lemma simStep_balance_em (monthlyRate M : ℚ) (cfg : ExtraPaymentConfig) (bw : ℚ)
    (s : SimState) (ht : cfg.type = ExtraPaymentType.extra_monthly) :
    (simStep monthlyRate M cfg bw s).balance
      = max 0 (max 0 (s.balance + s.balance * monthlyRate - M) - cfg.extraMonthly) := by
  have hex : extraFor cfg bw (s.months + 1) = cfg.extraMonthly := by
    unfold extraFor
    rw [ht]
  show max 0 (s.balance - min (min M (s.balance + s.balance * monthlyRate)
      - s.balance * monthlyRate + extraFor cfg bw (s.months + 1)) s.balance) = _
  rw [hex, simStep_balance_shape]

lemma simLoop_months_ge (monthlyRate M : ℚ) (cfg : ExtraPaymentConfig) (bw : ℚ) :
    ∀ (fuel : ℕ) (s : SimState),
      s.months ≤ (simLoop monthlyRate M cfg bw fuel s).months := by
  intro fuel
  induction fuel with
  | zero => intro s; exact le_refl _
  | succ fuel ih =>
    intro s
    by_cases hb : s.balance > 1 / 100
    · rw [simLoop_go monthlyRate M cfg bw fuel s hb]
      calc s.months ≤ s.months + 1 := Nat.le_succ _
        _ = (simStep monthlyRate M cfg bw s).months := (simStep_months _ _ _ _ _).symm
        _ ≤ _ := ih _
    · rw [simLoop_stop monthlyRate M cfg bw fuel s hb]

/-- Two extra-monthly simulations with the same loan but a larger extra
amount on the second: started from months-aligned states with the second
balance no larger, the second simulation never takes more months. -/
lemma simLoop_months_mono (monthlyRate M bw : ℚ) (hmr : 0 ≤ monthlyRate)
    (cfg1 cfg2 : ExtraPaymentConfig)
    (ht1 : cfg1.type = ExtraPaymentType.extra_monthly)
    (ht2 : cfg2.type = ExtraPaymentType.extra_monthly)
    (he : cfg1.extraMonthly ≤ cfg2.extraMonthly) :
    ∀ (fuel : ℕ) (s1 s2 : SimState), s1.months = s2.months → s2.balance ≤ s1.balance →
      (simLoop monthlyRate M cfg2 bw fuel s2).months
        ≤ (simLoop monthlyRate M cfg1 bw fuel s1).months := by
  intro fuel
  induction fuel with
  | zero => intro s1 s2 hm hb; exact le_of_eq hm.symm
  | succ fuel ih =>
    intro s1 s2 hm hb
    by_cases h2 : s2.balance > 1 / 100
    · have h1 : s1.balance > 1 / 100 := lt_of_lt_of_le h2 hb
      rw [simLoop_go monthlyRate M cfg1 bw fuel s1 h1,
        simLoop_go monthlyRate M cfg2 bw fuel s2 h2]
      apply ih
      · rw [simStep_months, simStep_months, hm]
      · rw [simStep_balance_em monthlyRate M cfg1 bw s1 ht1,
          simStep_balance_em monthlyRate M cfg2 bw s2 ht2]
        have hbb : s2.balance + s2.balance * monthlyRate
            ≤ s1.balance + s1.balance * monthlyRate :=
          add_le_add hb (mul_le_mul_of_nonneg_right hb hmr)
        apply max_le_max (le_refl 0)
        apply sub_le_sub _ he
        exact max_le_max (le_refl 0) (sub_le_sub_right hbb M)
    · rw [simLoop_stop monthlyRate M cfg2 bw fuel s2 h2]
      calc s2.months = s1.months := hm.symm
        _ ≤ _ := simLoop_months_ge monthlyRate M cfg1 bw (fuel + 1) s1

/-- CLAIM C7: for a fixed loan (principal > 0, rate ≥ 0 per the
LoanTerms data model, years > 0) with kind `extra_monthly`, increasing
`extraMonthly` never increases the returned `actualMonths`; and for
every policy the returned `monthsSaved` and `interestSaved` are never
negative. -/
theorem extraMonthly_monotone (principal annualRate : ℚ) (years : ℕ)
    (extra1 extra2 yearlyAmount : ℚ) (yearlyMonth : ℕ)
    (hp : 0 < principal) (hy : 0 < years) (hr : 0 ≤ annualRate) (he : extra1 ≤ extra2) :
    (calculateLoanWithExtraPayments principal annualRate years
          ⟨ExtraPaymentType.extra_monthly, extra2, yearlyAmount, yearlyMonth⟩).actualMonths
        ≤ (calculateLoanWithExtraPayments principal annualRate years
            ⟨ExtraPaymentType.extra_monthly, extra1, yearlyAmount, yearlyMonth⟩).actualMonths
      ∧ (∀ cfg : ExtraPaymentConfig,
          0 ≤ (calculateLoanWithExtraPayments principal annualRate years cfg).monthsSaved
            ∧ 0 ≤ (calculateLoanWithExtraPayments principal annualRate years cfg).interestSaved) := by
  have hguard : ¬(principal ≤ 0 ∨ years = 0) := by
    push_neg
    exact ⟨hp, Nat.pos_iff_ne_zero.mp hy⟩
  have hmr : 0 ≤ annualRate / 100 / 12 := by positivity
  constructor
  · have ht1 : (⟨ExtraPaymentType.extra_monthly, extra1, yearlyAmount, yearlyMonth⟩ :
        ExtraPaymentConfig).type ≠ ExtraPaymentType.none := fun h =>
      ExtraPaymentType.noConfusion h
    have ht2 : (⟨ExtraPaymentType.extra_monthly, extra2, yearlyAmount, yearlyMonth⟩ :
        ExtraPaymentConfig).type ≠ ExtraPaymentType.none := fun h =>
      ExtraPaymentType.noConfusion h
    obtain ⟨hm1, -, -⟩ := calcExtra_eq_simFinal principal annualRate years
      ⟨ExtraPaymentType.extra_monthly, extra1, yearlyAmount, yearlyMonth⟩ hguard ht1
    obtain ⟨hm2, -, -⟩ := calcExtra_eq_simFinal principal annualRate years
      ⟨ExtraPaymentType.extra_monthly, extra2, yearlyAmount, yearlyMonth⟩ hguard ht2
    rw [hm1, hm2]
    have hsf : ∀ extra : ℚ,
        simFinalState principal annualRate years
            ⟨ExtraPaymentType.extra_monthly, extra, yearlyAmount, yearlyMonth⟩
          = simLoop (annualRate / 100 / 12)
              (annuityMonthlyPayment principal (annualRate / 100 / 12) (years * 12))
              ⟨ExtraPaymentType.extra_monthly, extra, yearlyAmount, yearlyMonth⟩ 0
              (years * 12 * 2)
              { balance := principal, totalPaid := 0, totalInterest := 0, months := 0 } := by
      intro extra
      simp only [simFinalState]
      rw [if_neg (fun h => ExtraPaymentType.noConfusion h)]
    rw [hsf extra1, hsf extra2]
    exact simLoop_months_mono (annualRate / 100 / 12)
      (annuityMonthlyPayment principal (annualRate / 100 / 12) (years * 12)) 0 hmr
      ⟨ExtraPaymentType.extra_monthly, extra1, yearlyAmount, yearlyMonth⟩
      ⟨ExtraPaymentType.extra_monthly, extra2, yearlyAmount, yearlyMonth⟩
      rfl rfl he (years * 12 * 2) _ _ rfl (le_refl principal)
  · intro cfg
    simp only [calculateLoanWithExtraPayments]
    split_ifs <;> exact ⟨by norm_num, by norm_num⟩

/-- Witness for `extraMonthly_monotone` at principal 1000, rate 5,
2 years, extras 50 and 100. -/
theorem extraMonthly_monotone_witness :
    (calculateLoanWithExtraPayments 1000 5 2
          ⟨ExtraPaymentType.extra_monthly, 100, 0, 0⟩).actualMonths
        ≤ (calculateLoanWithExtraPayments 1000 5 2
            ⟨ExtraPaymentType.extra_monthly, 50, 0, 0⟩).actualMonths
      ∧ (∀ cfg : ExtraPaymentConfig,
          0 ≤ (calculateLoanWithExtraPayments 1000 5 2 cfg).monthsSaved
            ∧ 0 ≤ (calculateLoanWithExtraPayments 1000 5 2 cfg).interestSaved) :=
  extraMonthly_monotone 1000 5 2 50 100 0 0 (by norm_num) (by norm_num) (by norm_num)
    (by norm_num)
